import Mathlib

/-!
# Show: shader wallpaper renderer (src/main.c)

A shallow embedding of `main.c`: `main`, `init`, `set_pixmap_to_root` and the
frame loop of `draw`, together with the parts of the X server and of the
OpenGL fixed-function pipeline that these functions talk to.

Conventions.

* C `int` values are `Int`. Arithmetic in the 64-bit `long` wraps
  (`wrap_long`), and the conversion to `uint64_t` and to `uint32_t` is written
  with an explicit `% 2 ^ 64` / `% 2 ^ 32`.
* A C `float` / `double` value is the rational number it denotes. Every
  floating operation of the source yields the exact result rounded to the
  type of the operation, to nearest with ties to even: `to_float` rounds to
  binary32 (24 significant bits), `to_double` to binary64 (53 bits). A
  conversion of an integer to `float`, a `float` literal and the narrowing of
  a `double` argument to a `float` parameter round in the same way. Infinities
  and NaN are not represented: the quantities of the program stay far below
  the overflow threshold.
* Conversion of a floating value to an integer type truncates toward zero
  (`c_trunc`).
* What the X server or the clock answers to a call is an explicit argument.
* The fixed-function pipeline behind the OpenGL calls is taken in exact
  arithmetic; the arguments it receives are the rounded values the source
  passes.
-/

namespace Show

/-! ## C arithmetic -/

/-- Conversion of a floating value to a C integer type: the fractional part is
discarded (truncation toward zero). -/
def c_trunc (x : ℚ) : Int := if 0 ≤ x then ⌊x⌋ else ⌈x⌉

/-- Rounding to the nearest integer, ties to the even one. -/
def round_half_even (x : ℚ) : Int :=
  if x - ⌊x⌋ < 1 / 2 then ⌊x⌋
  else if 1 / 2 < x - ⌊x⌋ then ⌊x⌋ + 1
  else if ⌊x⌋ % 2 = 0 then ⌊x⌋ else ⌊x⌋ + 1

/-- The exponent of the unit in the last place of a magnitude `x` in a binary
format with `prec` significant bits and least normal exponent `emin`. -/
def ulp_exponent (prec : Nat) (emin : Int) (x : ℚ) : Int :=
  max (Int.log 2 x) emin - (prec - 1)

/-- A magnitude `x ≥ 0` rounded to the format: the nearest multiple of its unit
in the last place, ties to even. -/
def round_magnitude (prec : Nat) (emin : Int) (x : ℚ) : ℚ :=
  round_half_even (x / 2 ^ ulp_exponent prec emin x) * 2 ^ ulp_exponent prec emin x

/-- IEEE 754 rounding to nearest, ties to even, into a binary format. -/
def to_binary (prec : Nat) (emin : Int) (x : ℚ) : ℚ :=
  if 0 ≤ x then round_magnitude prec emin x else -round_magnitude prec emin (-x)

/-- Rounding to C `float` (binary32). -/
def to_float (x : ℚ) : ℚ := to_binary 24 (-126) x

/-- Rounding to C `double` (binary64). -/
def to_double (x : ℚ) : ℚ := to_binary 53 (-1022) x

/-- The status `EXIT_FAILURE` of stdlib.h. -/
def EXIT_FAILURE : Int := 1

/-- The status `EXIT_SUCCESS` of stdlib.h. -/
def EXIT_SUCCESS : Int := 0

/-! ## Elapsed time (draw, lines 286-288, 308-309) -/

/-- The `struct timespec` of time.h. -/
structure timespec where
  tv_sec : Int
  tv_nsec : Int
  deriving DecidableEq, Repr

/-- Time order on timespec values: seconds first, then nanoseconds. -/
def timespec.le (a b : timespec) : Prop :=
  a.tv_sec < b.tv_sec ∨ (a.tv_sec = b.tv_sec ∧ a.tv_nsec ≤ b.tv_nsec)

instance (a b : timespec) : Decidable (timespec.le a b) := by
  unfold timespec.le; infer_instance

/-- The value a 64-bit `long` holds after an operation whose exact result is
`x`: two's complement wrap-around. -/
def wrap_long (x : Int) : Int := (x + 2 ^ 63) % 2 ^ 64 - 2 ^ 63

/-- Line 309, the right-hand side, an expression of type `long`:
`(end.tv_sec - start.tv_sec) * 1000000 + (end.tv_nsec - start.tv_nsec) / 1000`.
Each operation is carried out in 64 bits; the C division truncates toward zero
(`Int.tdiv`). -/
def delta_us_long (start end_ : timespec) : Int :=
  wrap_long (wrap_long (wrap_long (end_.tv_sec - start.tv_sec) * 1000000) +
    Int.tdiv (wrap_long (end_.tv_nsec - start.tv_nsec)) 1000)

/-- The elapsed microseconds as an exact integer, without the 64-bit limit:
what line 309 computes as long as nothing overflows. -/
def elapsed_us (start end_ : timespec) : Int :=
  (end_.tv_sec - start.tv_sec) * 1000000 + Int.tdiv (end_.tv_nsec - start.tv_nsec) 1000

/-- Line 309, the value stored in `uint64_t delta_us`. -/
def delta_us (start end_ : timespec) : Nat :=
  (delta_us_long start end_ % 2 ^ 64).toNat

/-! ## The X server, as far as set_pixmap_to_root talks to it -/

/-- Atoms: the predefined ones the program uses, and interned names. -/
inductive Atom where
  | None
  | XA_ATOM
  | XA_CARDINAL
  | XA_PIXMAP
  | named (name : String)
  deriving DecidableEq, Repr

/-- Resource identifiers of pixmaps. -/
abbrev Pixmap := Nat

/-- A property on a window as `XGetWindowProperty (..., 0L, 1L, ...)` returns
it: its type, and `value`, the long that `*((Pixmap *) data)` reads from the
returned buffer. -/
structure Property where
  type : Atom
  value : Nat
  deriving DecidableEq, Repr

/-- The server-side state that `set_pixmap_to_root` reads and writes. -/
structure XServer where
  /-- the names that are interned -/
  atoms : List String
  /-- the properties of the root window -/
  root_properties : List (Atom × Property)
  /-- the pixmaps that exist: id, width, height, and the tile they were filled with -/
  pixmaps : List (Pixmap × Int × Int × Pixmap)
  /-- the background pixmap of the root window -/
  root_background : Option Pixmap
  /-- the resources handed to `XKillClient`, latest first -/
  killed : List Pixmap
  deriving DecidableEq, Repr

/-- Xlib `XInternAtom (dpy, name, only_if_exists)`. -/
def XInternAtom (x : XServer) (name : String) (only_if_exists : Bool) : XServer × Atom :=
  if name ∈ x.atoms then (x, Atom.named name)
  else if only_if_exists then (x, Atom.None)
  else ({ x with atoms := name :: x.atoms }, Atom.named name)

/-- Xlib `XGetWindowProperty` on the root window: the returned type (`None`
when the window has no such property) and the data pointer (NULL in that case). -/
def XGetWindowProperty (x : XServer) (property : Atom) : Atom × Option Nat :=
  match x.root_properties.lookup property with
  | some p => (p.type, some p.value)
  | none => (Atom.None, none)

/-- Xlib `XChangeProperty (dpy, root, property, type, 32, PropModeReplace, &value, 1)`. -/
def XChangeProperty (x : XServer) (property type : Atom) (value : Nat) : XServer :=
  { x with root_properties :=
      (property, { type := type, value := value }) ::
        x.root_properties.filter (fun e => decide (e.1 ≠ property)) }

/-- Xlib `XKillClient (dpy, resource)`: the client that created the resource
is closed down and its resources are destroyed, whether it is still connected
or has left them behind with RetainPermanent. Of these resources the state
tracks the pixmap the call names. -/
def XKillClient (x : XServer) (resource : Nat) : XServer :=
  { x with
    killed := resource :: x.killed
    pixmaps := x.pixmaps.filter (fun e => decide (e.1 ≠ resource)) }

/-- Lines 194-199: `XCreatePixmap` on the second connection and the tiled fill. -/
def XCreatePixmap_filled (x : XServer) (id : Pixmap) (width height : Int) (tile : Pixmap) :
    XServer :=
  { x with pixmaps := (id, width, height, tile) :: x.pixmaps }

/-- Xlib `XSetWindowBackgroundPixmap (dpy, root, pixmap)`. -/
def XSetWindowBackgroundPixmap (x : XServer) (pmap : Pixmap) : XServer :=
  { x with root_background := some pmap }

/-- What the second connection of one call of `set_pixmap_to_root` obtains:
the id `XCreatePixmap` returns on it. -/
structure Display2 where
  pmap_d2 : Pixmap
  deriving DecidableEq, Repr

/-- Lines 203-221: the eviction step. -/
def evict_previous_owner (x : XServer) : XServer :=
  let r1 := XInternAtom x "_XROOTPMAP_ID" true
  let prop_root := r1.2
  let r2 := XInternAtom r1.1 "ESETROOT_PMAP_ID" true
  let prop_esetroot := r2.2
  let x := r2.1
  if prop_root ≠ Atom.None ∧ prop_esetroot ≠ Atom.None then
    let g1 := XGetWindowProperty x prop_root
    let data_root := g1.2
    if g1.1 = Atom.XA_PIXMAP then
      let g2 := XGetWindowProperty x prop_esetroot
      let type := g2.1
      let data_esetroot := g2.2
      match data_root, data_esetroot with
      | some r, some e =>
        if type = Atom.XA_PIXMAP ∧ r = e then XKillClient x r else x
      | _, _ => x
    else x
  else x

/-- Lines 231-246: publish the new pixmap under both names and make it the
root background. -/
def publish_pixmap (x : XServer) (pmap_d2 : Pixmap) : XServer :=
  let r1 := XInternAtom x "_XROOTPMAP_ID" false
  let prop_root := r1.2
  let r2 := XInternAtom r1.1 "ESETROOT_PMAP_ID" false
  let prop_esetroot := r2.2
  let x := r2.1
  let x := XChangeProperty x prop_root Atom.XA_PIXMAP pmap_d2
  let x := XChangeProperty x prop_esetroot Atom.XA_PIXMAP pmap_d2
  XSetWindowBackgroundPixmap x pmap_d2

/-- The function `set_pixmap_to_root (pmap_d1, width, height)`, lines 168-247.
`dpy2` is what `XOpenDisplay (NULL)` returns (`none` for NULL, on which the
process exits with `EXIT_FAILURE`). -/
def set_pixmap_to_root (x : XServer) (dpy2 : Option Display2)
    (pmap_d1 : Pixmap) (width height : Int) : Except Int XServer :=
  match dpy2 with
  | none => Except.error EXIT_FAILURE
  | some c =>
    let pmap_d2 := c.pmap_d2
    let x := XCreatePixmap_filled x pmap_d2 width height pmap_d1
    let x := evict_previous_owner x
    Except.ok (publish_pixmap x pmap_d2)

/-- The property recorded on the root window under an interned name. -/
def root_property (x : XServer) (name : String) : Option Property :=
  x.root_properties.lookup (Atom.named name)

/-- The pixmaps recorded under the two ownership names, without repetition. -/
def recorded_owners (x : XServer) : List Pixmap :=
  (((root_property x "_XROOTPMAP_ID").toList ++
    (root_property x "ESETROOT_PMAP_ID").toList).map Property.value).dedup

/-- The ids of the pixmaps that exist. -/
def pixmap_ids (x : XServer) : List Pixmap :=
  x.pixmaps.map (fun e => e.1)

/-- The recorded owners that are live: their pixmap exists, it has not been
destroyed by an eviction since it was created. -/
def live_owners (x : XServer) : List Pixmap :=
  (recorded_owners x).filter (fun p => decide (p ∈ pixmap_ids x))

/-- Every property of the root window is keyed by an interned name. -/
def XServer.wf (x : XServer) : Prop :=
  ∀ e ∈ x.root_properties, ∃ n ∈ x.atoms, e.1 = Atom.named n

/-- A server state in which a previous wallpaper setter owns pixmap 7 and has
recorded it under both ownership names. -/
def state_owner_7 : XServer :=
  { atoms := ["_XROOTPMAP_ID", "ESETROOT_PMAP_ID"]
    root_properties :=
      [(Atom.named "_XROOTPMAP_ID", { type := Atom.XA_PIXMAP, value := 7 }),
       (Atom.named "ESETROOT_PMAP_ID", { type := Atom.XA_PIXMAP, value := 7 })]
    pixmaps := [(7, 1920, 1080, 3)]
    root_background := some 7
    killed := [] }

/-- A server state in which both ownership names carry the same id 7, stored
with type CARDINAL. -/
def state_cardinal_owner : XServer :=
  { atoms := ["_XROOTPMAP_ID", "ESETROOT_PMAP_ID"]
    root_properties :=
      [(Atom.named "_XROOTPMAP_ID", { type := Atom.XA_CARDINAL, value := 7 }),
       (Atom.named "ESETROOT_PMAP_ID", { type := Atom.XA_CARDINAL, value := 7 })]
    pixmaps := []
    root_background := none
    killed := [] }

/-- A server state right after start-up: nothing interned, no property, no pixmap. -/
def state_empty : XServer :=
  { atoms := [], root_properties := [], pixmaps := [], root_background := none, killed := [] }

/-! ## Options (lines 26-51) -/

/-- The enumerator `BACKGROUND` of `enum Mode`. -/
def BACKGROUND : Int := 0

/-- The enumerator `WINDOW` of `enum Mode`. -/
def WINDOW : Int := 1

/-- The enumerator `ROOT` of `enum Mode`. -/
def ROOT : Int := 2

/-- The struct behind the global `options` (its C type is called `Option`). -/
structure Options where
  quality : ℚ
  speed : ℚ
  opacity : ℚ
  mode : Int
  deriving DecidableEq, Repr

/-! ## init (lines 66-160) -/

/-- What the display, GLX, GLEW and the shader compiler answer during `init`. -/
structure InitEnv where
  /-- `XOpenDisplay (NULL)` is not NULL -/
  display_opened : Bool
  /-- `glXChooseVisual` is not NULL -/
  visual_found : Bool
  /-- `s->width` of screen 0 -/
  screen_width : Int
  /-- `s->height` of screen 0 -/
  screen_height : Int
  /-- `glXCreateContext` is not NULL -/
  context_created : Bool
  /-- `glewInit () == GLEW_OK && GLEW_VERSION_2_1` -/
  glew_ok : Bool
  /-- `shader_compile (filepath)` is not NULL -/
  shader_compiled : Bool
  deriving DecidableEq, Repr

/-- The value a 32-bit property is set to. -/
inductive PropertyValue where
  | atom (name : String)
  | cardinal (v : Int)
  deriving DecidableEq, Repr

/-- The calls of `init` that reach the display, in program order. -/
inductive Call where
  | fprintf_stderr (text : String)
  | XCreateWindow (width height : Int)
  | XChangeProperty (property : String) (type : Atom) (format : Nat) (value : PropertyValue)
  | XMapWindow
  | XStoreName (name : String)
  | glXMakeCurrent_root
  | glXMakeCurrent_win
  | glOrtho (left right bottom top near far : Int)
  | shader_compile (filepath : String)
  deriving DecidableEq, Repr

/-- The operand `(uint32_t)-1` of the product on line 117. Its integer value is
4294967295; the other operand is a `float`, so the usual arithmetic conversions
turn it into a `float`, and 4294967295 (32 significant bits) is not a binary32
number: the conversion yields the nearest one, 4294967296 = 2^32. Multiplying a
binary32 value by 2^32 only changes the exponent, so the product is exact. -/
def UINT32_MAX_float : ℚ := 4294967296

/-- Line 117: `(uint32_t) (options.opacity * (uint32_t)-1)`. -/
def cardinal_alpha (opacity : ℚ) : Int :=
  c_trunc (opacity * UINT32_MAX_float) % 2 ^ 32

/-- Lines 100-123: the window of the window and background modes. -/
def init_window (o : Options) (env : InitEnv) : List Call :=
  if o.mode = WINDOW ∨ o.mode = BACKGROUND then
    (if o.mode = BACKGROUND then
      [Call.XCreateWindow env.screen_width env.screen_height,
       Call.XChangeProperty "_NET_WM_WINDOW_TYPE" Atom.XA_ATOM 32
         (PropertyValue.atom "_NET_WM_WINDOW_TYPE_DESKTOP")]
    else
      [Call.XCreateWindow 600 600]) ++
    (if o.opacity < 1 then
      [Call.XChangeProperty "_NET_WM_WINDOW_OPACITY" Atom.XA_CARDINAL 32
         (PropertyValue.cardinal (cardinal_alpha o.opacity))]
    else []) ++
    [Call.XMapWindow, Call.XStoreName "Show"]
  else []

/-- The outcome of `init`: the calls made, and the exit status when the
process exits inside it. -/
structure InitResult where
  calls : List Call
  exit : Option Int
  deriving DecidableEq, Repr

/-- The function `init (filepath)`, lines 66-160. -/
def init (o : Options) (env : InitEnv) (filepath : String) : InitResult :=
  if env.display_opened = false then
    ⟨[Call.fprintf_stderr "Error while opening display.\n"], some EXIT_FAILURE⟩
  else if env.visual_found = false then
    ⟨[Call.fprintf_stderr "No appropriate visual found\n"], some EXIT_FAILURE⟩
  else
    let calls := init_window o env
    if env.context_created = false then
      ⟨calls ++ [Call.fprintf_stderr "Failed to create context\n"], some EXIT_FAILURE⟩
    else
      let calls := calls ++
        [if o.mode = ROOT then Call.glXMakeCurrent_root else Call.glXMakeCurrent_win,
         Call.glOrtho 0 1 1 0 (-1) 1]
      if env.glew_ok = false then
        ⟨calls ++ [Call.fprintf_stderr "Failed to init GLEW\n"], some EXIT_FAILURE⟩
      else if env.shader_compiled = false then
        ⟨calls ++ [Call.shader_compile filepath,
          Call.fprintf_stderr "Failed to compile Shader\n"], some EXIT_FAILURE⟩
      else
        ⟨calls ++ [Call.shader_compile filepath], none⟩

/-- The value of a call that sets the `_NET_WM_WINDOW_OPACITY` property. -/
def Call.opacity_value : Call → Option PropertyValue
  | Call.XChangeProperty property _ _ v =>
    if property = "_NET_WM_WINDOW_OPACITY" then some v else none
  | _ => none

/-- The values `init` attaches to the window as `_NET_WM_WINDOW_OPACITY`. -/
def opacity_properties (calls : List Call) : List PropertyValue :=
  calls.filterMap Call.opacity_value

/-- An environment in which every step of `init` succeeds, on a 1920x1080 screen. -/
def env_ok : InitEnv :=
  { display_opened := true, visual_found := true, screen_width := 1920, screen_height := 1080,
    context_created := true, glew_ok := true, shader_compiled := true }

/-! ## main (lines 397-450) -/

/-- What arghandler and libc return to `main` for one command line. -/
structure Arguments where
  /-- the string `get_argument_values` returns -/
  file_path : String
  /-- `atof (arguments[0].value)`, a `double` -/
  quality : ℚ
  /-- `atof (arguments[1].value)`, a `double` -/
  speed : ℚ
  /-- `atof (arguments[2].value)`, a `double` -/
  opacity : ℚ
  /-- `arguments[3].value` -/
  mode_name : String
  /-- `in_to_enum (arguments[3].value, mode_conversion_table, 3)`: the enumerator,
  or -1 for a name that is not in the table -/
  mode : Int
  /-- `access (file_path, F_OK) != -1` -/
  file_exists : Bool
  deriving DecidableEq, Repr

/-- What `main` prints and calls, in program order. -/
inductive Output where
  | print_help
  | stderr (text : String)
  | init (filepath : String) (o : Options)
  | draw (o : Options)
  deriving DecidableEq, Repr

/-- The outcome of the process: exit status and what happened before. -/
structure Exit where
  status : Int
  output : List Output
  deriving DecidableEq, Repr

/-- The function `main`, lines 397-450. `env` is what `init` meets; `draw_exit`
is the status with which the process exits inside `draw`, if it does. Lines
435-437 compute in `double` (the literal 0.01 is the `double` nearest to 1/100)
and store the results in the `float` fields of `options`. -/
def main (argc : Nat) (a : Arguments) (env : InitEnv) (draw_exit : Option Int) : Exit :=
  if argc ≤ 1 then
    ⟨0, [Output.print_help]⟩
  else if a.file_path = "" then
    ⟨EXIT_FAILURE, [Output.stderr "Error: File not specified!\n", Output.print_help]⟩
  else if a.file_exists = false then
    ⟨EXIT_FAILURE, [Output.stderr ("ERROR: File at '" ++ a.file_path ++ "' does not exist\n")]⟩
  else
    let options : Options :=
      { quality := to_float (min (max a.quality (to_double (1 / 100))) 1)
        speed := to_float a.speed
        opacity := to_float a.opacity
        mode := a.mode }
    if options.mode = -1 then
      ⟨EXIT_FAILURE,
        [Output.stderr ("ERROR: Mode \"" ++ a.mode_name ++ "\" does not exist\n"),
         Output.print_help]⟩
    else
      match (init options env a.file_path).exit with
      | some status => ⟨status, [Output.init a.file_path options]⟩
      | none =>
        match draw_exit with
        | some status => ⟨status, [Output.init a.file_path options, Output.draw options]⟩
        | none => ⟨EXIT_SUCCESS, [Output.init a.file_path options, Output.draw options]⟩

/-- Whether an output is a message on standard error. -/
def Output.is_stderr : Output → Bool
  | Output.stderr _ => true
  | _ => false

/-- Whether an output is a call of `init` or of `draw`. -/
def Output.is_init_or_draw : Output → Bool
  | Output.init _ _ => true
  | Output.draw _ => true
  | _ => false

/-- A command line naming a shader file that does not exist. -/
def args_no_such_file : Arguments :=
  { file_path := "nope.frag", quality := 1, speed := 1, opacity := 1,
    mode_name := "background", mode := BACKGROUND, file_exists := false }

/-! ## draw (lines 249-391) -/

/-- The size of screen 0 (`screen->width`, `screen->height`). -/
structure Screen where
  width : Int
  height : Int
  deriving DecidableEq, Repr

/-- The arguments of a `glViewport (x, y, width, height)` call. -/
structure Viewport where
  x : Int
  y : Int
  width : Int
  height : Int
  deriving DecidableEq, Repr

/-- What the environment answers during one loop iteration. -/
structure FrameInput where
  /-- `gwa.width` after `XGetWindowAttributes` (read in window mode only) -/
  gwa_width : Int
  /-- `gwa.height` after `XGetWindowAttributes` (read in window mode only) -/
  gwa_height : Int
  /-- the reading of `clock_gettime (CLOCK_MONOTONIC_RAW, &end)` -/
  end_ : timespec
  /-- `root_x` after `XQueryPointer` on the root window -/
  root_x : Int
  /-- `root_y` after `XQueryPointer` on the root window -/
  root_y : Int
  /-- the second display connection of `set_pixmap_to_root` (root mode only) -/
  dpy2 : Option Display2
  deriving DecidableEq, Repr

/-- The locals of `draw` that live across loop iterations, the storage size of
the colour texture, and the X server. -/
structure DrawState where
  width : Int
  height : Int
  /-- the reading of `clock_gettime` before the loop -/
  start : timespec
  /-- the `width`, `height` of the latest `glTexImage2D` on the colour texture -/
  texture : Int × Int
  /-- the pixmap created on line 256 -/
  pmap : Pixmap
  server : XServer
  deriving DecidableEq, Repr

/-- The arguments of the calls of one loop iteration, lines 301-369, in
program order. -/
structure Frame where
  /-- `width` after line 303 -/
  width : Int
  /-- `height` after line 304 -/
  height : Int
  /-- line 305: `glTexImage2D (..., width, height, ...)`, window mode only -/
  glTexImage2D : Option (Int × Int)
  /-- line 309 -/
  delta_us : Nat
  /-- line 312: `glViewport (0, 0, width * quality, height * quality)` -/
  viewport_shader : Viewport
  /-- line 326: `shader_set_float (locTime, ...)` -/
  time : ℚ
  /-- line 327: `shader_set_vec2 (locResolution, ...)` -/
  resolution : ℚ × ℚ
  /-- line 328: `shader_set_vec2 (locMouse, ...)` -/
  mouse : ℚ × ℚ
  /-- lines 334-337: the `glVertex2f` of the shader quad -/
  shader_quad : List (ℚ × ℚ)
  /-- line 343: `glViewport (0, 0, width, height)` -/
  viewport_blit : Viewport
  /-- line 356: `glScalef (1.0 / quality, 1.0 / quality, 1.0)` -/
  glScalef : ℚ × ℚ
  /-- line 357: `glTranslatef (0.0, quality - 1.0, 0.0)` -/
  glTranslatef : ℚ × ℚ
  /-- lines 360-367: the `glTexCoord2f`, `glVertex2f` pairs of the blit quad -/
  blit_quad : List ((ℚ × ℚ) × (ℚ × ℚ))
  deriving DecidableEq, Repr

/-- Lines 250-288: the state in which `draw` enters its loop. The texture is
allocated on line 275 with the screen size. -/
def draw_setup (screen : Screen) (start : timespec) (pmap : Pixmap) (server : XServer) :
    DrawState :=
  { width := screen.width
    height := screen.height
    start := start
    texture := (screen.width, screen.height)
    pmap := pmap
    server := server }

/-- The `float` product `n * quality` of an `int` and `options.quality`
(lines 312 and 327): the `int` is converted to `float`, the product is rounded
to `float`. -/
def scaled_by_quality (n : Int) (quality : ℚ) : ℚ :=
  to_float (to_float n * quality)

/-- Lines 301-369: one pass of the loop body up to the end of the blit.
The fields of `o` are `float` values. In line 328 the quotients are `float`
divisions, and `1.0 - ...` is a `double` subtraction whose result is narrowed
to the `float` parameter of `shader_set_vec2`; in lines 356-357 the `double`
results `1.0 / quality` and `quality - 1.0` are narrowed to the `GLfloat`
parameters of `glScalef` and `glTranslatef`. -/
def render_frame (o : Options) (st : DrawState) (inp : FrameInput) : Frame :=
  let width := if o.mode = WINDOW then inp.gwa_width else st.width
  let height := if o.mode = WINDOW then inp.gwa_height else st.height
  let delta_us := delta_us st.start inp.end_
  { width := width
    height := height
    glTexImage2D := if o.mode = WINDOW then some (width, height) else none
    delta_us := delta_us
    viewport_shader :=
      { x := 0
        y := 0
        width := c_trunc (scaled_by_quality width o.quality)
        height := c_trunc (scaled_by_quality height o.quality) }
    time := to_float (to_float (to_float delta_us * to_float (1 / 1000000)) * o.speed)
    resolution := (scaled_by_quality width o.quality, scaled_by_quality height o.quality)
    mouse :=
      (to_float (to_float inp.root_x / to_float width),
       to_float (to_double (1 - to_float (to_float inp.root_y / to_float height))))
    shader_quad := [(0, 0), (1, 0), (1, 1), (0, 1)]
    viewport_blit := { x := 0, y := 0, width := width, height := height }
    glScalef := (to_float (to_double (1 / o.quality)), to_float (to_double (1 / o.quality)))
    glTranslatef := (0, to_float (to_double (o.quality - 1)))
    blit_quad := [((0, 1), (0, 0)), ((1, 1), (1, 0)), ((1, 0), (1, 1)), ((0, 0), (0, 1))] }

/-- Lines 301-387: one loop iteration. The result is the state in which the
next iteration starts, or the exit status when `set_pixmap_to_root` exits. -/
def draw_iteration (o : Options) (st : DrawState) (inp : FrameInput) : Except Int DrawState :=
  let f := render_frame o st inp
  let st1 : DrawState :=
    { st with
      width := f.width
      height := f.height
      texture := match f.glTexImage2D with
        | some size => size
        | none => st.texture }
  if o.mode = ROOT then
    match set_pixmap_to_root st1.server inp.dpy2 st1.pmap f.width f.height with
    | Except.ok server => Except.ok { st1 with server := server }
    | Except.error status => Except.error status
  else
    Except.ok st1

/-- The loop of lines 298-388 over the frames that start before `keep_running`
is cleared: the frames rendered, and the exit status if the process exits. -/
def draw_loop (o : Options) : DrawState → List FrameInput → List Frame × Option Int
  | _, [] => ([], none)
  | st, inp :: rest =>
    match draw_iteration o st inp with
    | Except.ok st1 =>
      ((render_frame o st inp) :: (draw_loop o st1 rest).1, (draw_loop o st1 rest).2)
    | Except.error status => ([render_frame o st inp], some status)

/-! ## The fixed-function pipeline, in the plane -/

/-- An axis-aligned affine map of the plane: `(x, y)` goes to
`(sx * x + tx, sy * y + ty)`. These are the matrices the program builds. -/
structure Affine where
  sx : ℚ
  sy : ℚ
  tx : ℚ
  ty : ℚ
  deriving DecidableEq, Repr

/-- The image of a point. -/
def Affine.apply (m : Affine) (v : ℚ × ℚ) : ℚ × ℚ :=
  (m.sx * v.1 + m.tx, m.sy * v.2 + m.ty)

/-- OpenGL `glOrtho (left, right, bottom, top, ...)`: the current matrix is
multiplied by the orthographic matrix. -/
def glOrtho (m : Affine) (left right bottom top : ℚ) : Affine :=
  { sx := m.sx * (2 / (right - left))
    sy := m.sy * (2 / (top - bottom))
    tx := m.sx * (-(right + left) / (right - left)) + m.tx
    ty := m.sy * (-(top + bottom) / (top - bottom)) + m.ty }

/-- OpenGL `glScalef (x, y, 1)`: the current matrix is multiplied by a scaling. -/
def glScalef (m : Affine) (x y : ℚ) : Affine :=
  { sx := m.sx * x, sy := m.sy * y, tx := m.tx, ty := m.ty }

/-- OpenGL `glTranslatef (x, y, 0)`: the current matrix is multiplied by a translation. -/
def glTranslatef (m : Affine) (x y : ℚ) : Affine :=
  { sx := m.sx, sy := m.sy, tx := m.sx * x + m.tx, ty := m.sy * y + m.ty }

/-- A loop state on a 1366x768 screen. -/
def state_1366 : DrawState :=
  draw_setup ⟨1366, 768⟩ ⟨100, 0⟩ 3 state_empty

/-- A loop state on a 1920x1080 screen. -/
def state_1920 : DrawState :=
  draw_setup ⟨1920, 1080⟩ ⟨100, 0⟩ 3 state_empty

/-- A frame input: a 600x600 window, one second after the start, the pointer
at `(1200, 0)` of the root window. -/
def input_600 : FrameInput :=
  { gwa_width := 600, gwa_height := 600, end_ := ⟨101, 0⟩, root_x := 1200, root_y := 0,
    dpy2 := some ⟨8⟩ }

/-- A frame input: two seconds after the start. -/
def input_later : FrameInput :=
  { gwa_width := 600, gwa_height := 600, end_ := ⟨102, 0⟩, root_x := 1200, root_y := 0,
    dpy2 := some ⟨9⟩ }

/-! ## Theorems -/

theorem round_half_even_bounds (x : ℚ) :
    ⌊x⌋ ≤ round_half_even x ∧ round_half_even x ≤ ⌊x⌋ + 1 := by
  unfold round_half_even
  split_ifs <;> constructor <;> omega

theorem round_half_even_of_near (x : ℚ) (n : Int) (h : |x - n| < 1 / 2) :
    round_half_even x = n := by
  rw [abs_lt] at h
  unfold round_half_even
  by_cases c : (n : ℚ) ≤ x
  · have hf : ⌊x⌋ = n := by
      rw [Int.floor_eq_iff]; constructor <;> linarith
    rw [hf, if_pos (by linarith)]
  · have hf : ⌊x⌋ = n - 1 := by
      rw [Int.floor_eq_iff]; push_cast; constructor <;> linarith
    rw [hf]
    push_cast
    rw [if_neg (by linarith), if_pos (by linarith)]
    ring

theorem round_half_even_intCast (n : Int) : round_half_even (n : ℚ) = n :=
  round_half_even_of_near _ n (by simp)

theorem round_half_even_mono {x y : ℚ} (h : x ≤ y) : round_half_even x ≤ round_half_even y := by
  have hf : ⌊x⌋ ≤ ⌊y⌋ := Int.floor_mono h
  rcases lt_or_eq_of_le hf with hlt | heq
  · have := (round_half_even_bounds x).2
    have := (round_half_even_bounds y).1
    omega
  · unfold round_half_even
    rw [← heq]
    have hxy : x - ⌊x⌋ ≤ y - ⌊x⌋ := by linarith
    split_ifs <;> first | omega | (exfalso; linarith)

theorem log_two_eq {x : ℚ} {k : Int} (h1 : (2 : ℚ) ^ k ≤ x) (h2 : x < (2 : ℚ) ^ (k + 1)) :
    Int.log 2 x = k := by
  have hx : 0 < x := lt_of_lt_of_le (zpow_pos (by norm_num) k) h1
  have a : k ≤ Int.log 2 x := (Int.zpow_le_iff_le_log (by norm_num) hx).mp (by exact_mod_cast h1)
  have b : Int.log 2 x < k + 1 := (Int.lt_zpow_iff_log_lt (by norm_num) hx).mp (by exact_mod_cast h2)
  omega

theorem round_magnitude_eval (prec : Nat) (emin : Int) (x : ℚ) (k n : Int)
    (h1 : (2 : ℚ) ^ k ≤ x) (h2 : x < (2 : ℚ) ^ (k + 1)) (he : emin ≤ k)
    (hn : |x / 2 ^ (k - (prec - 1)) - n| < 1 / 2) :
    round_magnitude prec emin x = n * 2 ^ (k - (prec - 1)) := by
  unfold round_magnitude ulp_exponent
  rw [log_two_eq h1 h2, max_eq_left he, round_half_even_of_near _ n hn]

theorem round_magnitude_zero (prec : Nat) (emin : Int) : round_magnitude prec emin 0 = 0 := by
  unfold round_magnitude
  rw [zero_div]
  have : round_half_even 0 = 0 := by
    have := round_half_even_intCast 0
    simpa using this
  rw [this]; simp

theorem round_magnitude_nonneg (prec : Nat) (emin : Int) {x : ℚ} (hx : 0 ≤ x) :
    0 ≤ round_magnitude prec emin x := by
  unfold round_magnitude
  have hp : (0 : ℚ) < 2 ^ ulp_exponent prec emin x := zpow_pos (by norm_num) _
  have h0 : round_half_even 0 ≤ round_half_even (x / 2 ^ ulp_exponent prec emin x) :=
    round_half_even_mono (div_nonneg hx hp.le)
  have : round_half_even 0 = 0 := by
    have := round_half_even_intCast 0
    simpa using this
  rw [this] at h0
  exact mul_nonneg (by exact_mod_cast h0) hp.le

theorem ulp_exponent_mono (prec : Nat) (emin : Int) {x y : ℚ} (hx : 0 < x) (h : x ≤ y) :
    ulp_exponent prec emin x ≤ ulp_exponent prec emin y := by
  unfold ulp_exponent
  have := Int.log_mono_right (b := 2) hx h
  have := max_le_max_right emin this
  omega

theorem round_magnitude_mono (prec : Nat) (emin : Int) (hprec : 1 ≤ prec) {x y : ℚ}
    (hx : 0 ≤ x) (h : x ≤ y) :
    round_magnitude prec emin x ≤ round_magnitude prec emin y := by
  rcases eq_or_lt_of_le hx with h0 | hpos
  · rw [← h0, round_magnitude_zero]
    exact round_magnitude_nonneg prec emin (le_trans hx h)
  have hy : 0 < y := lt_of_lt_of_le hpos h
  have he := ulp_exponent_mono prec emin hpos h
  rcases eq_or_lt_of_le he with heq | hlt
  · unfold round_magnitude
    rw [← heq]
    have hp : (0 : ℚ) < 2 ^ ulp_exponent prec emin x := zpow_pos (by norm_num) _
    have hd : x / 2 ^ ulp_exponent prec emin x ≤ y / 2 ^ ulp_exponent prec emin x :=
      div_le_div_of_nonneg_right h hp.le
    have := round_half_even_mono hd
    exact mul_le_mul_of_nonneg_right (by exact_mod_cast this) hp.le
  · -- the exponents differ: a power of two lies between the two results
    have hlogy : emin < Int.log 2 y ∧ Int.log 2 x < Int.log 2 y := by
      unfold ulp_exponent at hlt
      have := le_max_right (Int.log 2 x) emin
      have := le_max_left (Int.log 2 x) emin
      rcases le_total (Int.log 2 y) emin with c | c
      · rw [max_eq_right c] at hlt; omega
      · rw [max_eq_left c] at hlt; omega
    have hey : ulp_exponent prec emin y = Int.log 2 y - (prec - 1) := by
      unfold ulp_exponent; rw [max_eq_left hlogy.1.le]
    set k := Int.log 2 y with hk
    set ex := ulp_exponent prec emin x with hex
    set ey := ulp_exponent prec emin y with hey'
    have hxk : x < (2 : ℚ) ^ k := by
      have := Int.lt_zpow_succ_log_self (b := 2) (by norm_num) x
      have h2 : ((2 : ℕ) : ℚ) ^ (Int.log 2 x + 1) ≤ ((2 : ℕ) : ℚ) ^ k :=
        zpow_le_zpow_right₀ (by norm_num) (by omega)
      have := lt_of_lt_of_le this h2
      exact_mod_cast this
    have hky : (2 : ℚ) ^ k ≤ y := by
      have := Int.zpow_log_le_self (b := 2) (by norm_num) hy
      exact_mod_cast this
    have hpx : (0 : ℚ) < 2 ^ ex := zpow_pos (by norm_num) _
    have hpy : (0 : ℚ) < 2 ^ ey := zpow_pos (by norm_num) _
    -- left result is at most 2 ^ k
    have hey2 : ey = k - ((prec : Int) - 1) := hey
    have hkx : 0 ≤ k - ex := by omega
    have hleft : round_magnitude prec emin x ≤ (2 : ℚ) ^ k := by
      unfold round_magnitude
      rw [← hex]
      have e1 : (2 : ℚ) ^ k = ((2 ^ (k - ex).toNat : Int) : ℚ) * 2 ^ ex := by
        push_cast
        rw [← zpow_natCast, Int.toNat_of_nonneg hkx, ← zpow_add₀ (by norm_num)]
        congr 1; ring
      have hd : x / 2 ^ ex ≤ ((2 ^ (k - ex).toNat : Int) : ℚ) := by
        rw [div_le_iff₀ hpx, ← e1]; exact hxk.le
      have := round_half_even_mono hd
      rw [round_half_even_intCast] at this
      rw [e1]
      exact mul_le_mul_of_nonneg_right (by exact_mod_cast this) hpx.le
    have hky2 : 0 ≤ k - ey := by omega
    have hright : (2 : ℚ) ^ k ≤ round_magnitude prec emin y := by
      unfold round_magnitude
      rw [← hey']
      have e1 : (2 : ℚ) ^ k = ((2 ^ (k - ey).toNat : Int) : ℚ) * 2 ^ ey := by
        push_cast
        rw [← zpow_natCast, Int.toNat_of_nonneg hky2, ← zpow_add₀ (by norm_num)]
        congr 1; ring
      have hd : ((2 ^ (k - ey).toNat : Int) : ℚ) ≤ y / 2 ^ ey := by
        rw [le_div_iff₀ hpy, ← e1]; exact hky
      have := round_half_even_mono hd
      rw [round_half_even_intCast] at this
      rw [e1]
      exact mul_le_mul_of_nonneg_right (by exact_mod_cast this) hpy.le
    exact le_trans hleft hright


theorem to_binary_nonneg (prec : Nat) (emin : Int) {x : ℚ} (hx : 0 ≤ x) :
    0 ≤ to_binary prec emin x := by
  unfold to_binary
  rw [if_pos hx]
  exact round_magnitude_nonneg prec emin hx

theorem to_binary_mono_nonneg (prec : Nat) (emin : Int) (hprec : 1 ≤ prec) {x y : ℚ}
    (hx : 0 ≤ x) (h : x ≤ y) : to_binary prec emin x ≤ to_binary prec emin y := by
  unfold to_binary
  rw [if_pos hx, if_pos (le_trans hx h)]
  exact round_magnitude_mono prec emin hprec hx h

theorem to_binary_neg (prec : Nat) (emin : Int) (x : ℚ) :
    to_binary prec emin (-x) = -to_binary prec emin x := by
  unfold to_binary
  rcases lt_trichotomy x 0 with h | h | h
  · rw [if_pos (by linarith), if_neg (by linarith)]; simp
  · subst h; simp [round_magnitude_zero]
  · rw [if_neg (by linarith), if_pos h.le]; simp

theorem to_binary_eval (prec : Nat) (emin : Int) (x : ℚ) (k n : Int)
    (h1 : (2 : ℚ) ^ k ≤ x) (h2 : x < (2 : ℚ) ^ (k + 1)) (he : emin ≤ k)
    (hn : |x / 2 ^ (k - (prec - 1)) - n| < 1 / 2) :
    to_binary prec emin x = n * 2 ^ (k - (prec - 1)) := by
  have hx : 0 < x := lt_of_lt_of_le (zpow_pos (by norm_num) k) h1
  unfold to_binary
  rw [if_pos hx.le]
  exact round_magnitude_eval prec emin x k n h1 h2 he hn

theorem to_float_eval (x : ℚ) (k n : Int)
    (h1 : (2 : ℚ) ^ k ≤ x) (h2 : x < (2 : ℚ) ^ (k + 1)) (he : -126 ≤ k)
    (hn : |x / 2 ^ (k - 23) - n| < 1 / 2) :
    to_float x = n * 2 ^ (k - 23) := by
  have := to_binary_eval 24 (-126) x k n h1 h2 he (by simpa using hn)
  simpa [to_float] using this

theorem to_double_eval (x : ℚ) (k n : Int)
    (h1 : (2 : ℚ) ^ k ≤ x) (h2 : x < (2 : ℚ) ^ (k + 1)) (he : -1022 ≤ k)
    (hn : |x / 2 ^ (k - 52) - n| < 1 / 2) :
    to_double x = n * 2 ^ (k - 52) := by
  have := to_binary_eval 53 (-1022) x k n h1 h2 he (by simpa using hn)
  simpa [to_double] using this

theorem to_float_zero : to_float 0 = 0 := by
  simp [to_float, to_binary, round_magnitude_zero]

theorem to_double_zero : to_double 0 = 0 := by
  simp [to_double, to_binary, round_magnitude_zero]

theorem to_float_one : to_float 1 = 1 := by
  rw [to_float_eval 1 0 8388608 (by norm_num) (by norm_num) (by norm_num) (by norm_num)]
  norm_num

theorem to_double_one : to_double 1 = 1 := by
  rw [to_double_eval 1 0 4503599627370496 (by norm_num) (by norm_num) (by norm_num)
    (by norm_num)]
  norm_num

theorem to_float_nonneg {x : ℚ} (hx : 0 ≤ x) : 0 ≤ to_float x :=
  to_binary_nonneg 24 (-126) hx

theorem to_double_nonneg {x : ℚ} (hx : 0 ≤ x) : 0 ≤ to_double x :=
  to_binary_nonneg 53 (-1022) hx

theorem to_float_mono {x y : ℚ} (hx : 0 ≤ x) (h : x ≤ y) : to_float x ≤ to_float y :=
  to_binary_mono_nonneg 24 (-126) (by norm_num) hx h

theorem to_double_mono {x y : ℚ} (hx : 0 ≤ x) (h : x ≤ y) : to_double x ≤ to_double y :=
  to_binary_mono_nonneg 53 (-1022) (by norm_num) hx h

theorem to_float_neg (x : ℚ) : to_float (-x) = -to_float x := to_binary_neg 24 (-126) x

theorem to_float_le_one {x : ℚ} (hx : 0 ≤ x) (h : x ≤ 1) : to_float x ≤ 1 := by
  have := to_float_mono hx h
  rwa [to_float_one] at this

theorem to_double_le_one {x : ℚ} (hx : 0 ≤ x) (h : x ≤ 1) : to_double x ≤ 1 := by
  have := to_double_mono hx h
  rwa [to_double_one] at this

theorem one_le_to_float {x : ℚ} (h : 1 ≤ x) : 1 ≤ to_float x := by
  have := to_float_mono (by norm_num) h
  rwa [to_float_one] at this

theorem round_magnitude_of_multiple (prec : Nat) (emin : Int) (x : ℚ) (m : Int)
    (h : x = m * 2 ^ ulp_exponent prec emin x) : round_magnitude prec emin x = x := by
  have hp : (0 : ℚ) < 2 ^ ulp_exponent prec emin x := zpow_pos (by norm_num) _
  unfold round_magnitude
  have hd : x / 2 ^ ulp_exponent prec emin x = m := by
    rw [div_eq_iff hp.ne']; exact h
  rw [hd, round_half_even_intCast]
  exact h.symm

theorem to_float_natCast (n : Nat) (h : n < 16777216) : to_float (n : ℚ) = n := by
  rcases Nat.eq_zero_or_pos n with h0 | hpos
  · subst h0; simpa using to_float_zero
  have hx : (0 : ℚ) ≤ (n : ℚ) := by positivity
  unfold to_float to_binary
  rw [if_pos hx]
  have hlog : Int.log 2 (n : ℚ) = Nat.log 2 n := Int.log_natCast 2 n
  have hl : Nat.log 2 n < 24 := by
    apply Nat.log_lt_of_lt_pow (by omega)
    norm_num; exact h
  have he : ulp_exponent 24 (-126) (n : ℚ) = (Nat.log 2 n : Int) - 23 := by
    unfold ulp_exponent
    rw [hlog, max_eq_left (by omega)]
    norm_num
  apply round_magnitude_of_multiple 24 (-126) (n : ℚ) ((n * 2 ^ (23 - Nat.log 2 n) : Nat) : Int)
  rw [he]
  push_cast
  have : ((Nat.log 2 n : Int) - 23) = -((23 - Nat.log 2 n : Nat) : Int) := by omega
  rw [this, zpow_neg, zpow_natCast, mul_assoc, mul_inv_cancel₀ (by positivity), mul_one]

theorem to_float_intCast (n : Int) (h0 : 0 ≤ n) (h : n < 16777216) : to_float (n : ℚ) = n := by
  obtain ⟨m, rfl⟩ := Int.eq_ofNat_of_zero_le h0
  have := to_float_natCast m (by omega)
  simpa using this


theorem tdiv_1000_bounds (a : Int) :
    (0 ≤ a → Int.tdiv a 1000 = a / 1000) ∧ (a < 0 → Int.tdiv a 1000 = -((-a) / 1000)) := by
  constructor
  · intro h; exact Int.tdiv_eq_ediv h (by norm_num)
  · intro h
    have : a = -(-a) := by omega
    rw [this, Int.neg_tdiv, Int.tdiv_eq_ediv (by omega) (by norm_num)]
    simp

theorem elapsed_us_mono (start e1 e2 : timespec)
    (hs : 0 ≤ start.tv_nsec ∧ start.tv_nsec < 1000000000)
    (h1 : 0 ≤ e1.tv_nsec ∧ e1.tv_nsec < 1000000000)
    (h2 : 0 ≤ e2.tv_nsec ∧ e2.tv_nsec < 1000000000)
    (hse : timespec.le start e1) (hee : timespec.le e1 e2) :
    0 ≤ elapsed_us start e1 ∧ elapsed_us start e1 ≤ elapsed_us start e2 := by
  unfold timespec.le at hse hee
  unfold elapsed_us
  obtain ⟨p1, n1⟩ := tdiv_1000_bounds (e1.tv_nsec - start.tv_nsec)
  obtain ⟨p2, n2⟩ := tdiv_1000_bounds (e2.tv_nsec - start.tv_nsec)
  by_cases c1 : 0 ≤ e1.tv_nsec - start.tv_nsec <;> by_cases c2 : 0 ≤ e2.tv_nsec - start.tv_nsec
  · rw [p1 c1, p2 c2]; omega
  · rw [p1 c1, n2 (by omega)]; omega
  · rw [n1 (by omega), p2 c2]; omega
  · rw [n1 (by omega), n2 (by omega)]; omega

/-- With nanosecond fields in range, the 64-bit expression agrees with the
exact elapsed time modulo 2^64. -/
theorem delta_us_long_emod (start end_ : timespec)
    (hs : 0 ≤ start.tv_nsec ∧ start.tv_nsec < 1000000000)
    (he : 0 ≤ end_.tv_nsec ∧ end_.tv_nsec < 1000000000) :
    delta_us_long start end_ % 2 ^ 64 = elapsed_us start end_ % 2 ^ 64 ∧
    -2 ^ 63 ≤ delta_us_long start end_ ∧ delta_us_long start end_ < 2 ^ 63 := by
  unfold delta_us_long elapsed_us wrap_long
  generalize end_.tv_sec - start.tv_sec = a
  have hw : (end_.tv_nsec - start.tv_nsec + 2 ^ 63) % 2 ^ 64 - 2 ^ 63 =
      end_.tv_nsec - start.tv_nsec := by
    norm_num; omega
  rw [hw]
  generalize Int.tdiv (end_.tv_nsec - start.tv_nsec) 1000 = t
  norm_num
  omega

theorem delta_us_eq_elapsed (start end_ : timespec)
    (hs : 0 ≤ start.tv_nsec ∧ start.tv_nsec < 1000000000)
    (he : 0 ≤ end_.tv_nsec ∧ end_.tv_nsec < 1000000000)
    (h0 : 0 ≤ elapsed_us start end_) (h1 : elapsed_us start end_ < 2 ^ 64) :
    (delta_us start end_ : Int) = elapsed_us start end_ := by
  unfold delta_us
  rw [Int.toNat_of_nonneg (Int.emod_nonneg _ (by norm_num)), (delta_us_long_emod start end_ hs he).1]
  exact Int.emod_eq_of_lt h0 h1

theorem names_ne : ("_XROOTPMAP_ID" : String) ≠ "ESETROOT_PMAP_ID" := by decide

theorem lookup_XChangeProperty_same (x : XServer) (a t : Atom) (v : Nat) :
    (XChangeProperty x a t v).root_properties.lookup a = some ⟨t, v⟩ := by
  simp [XChangeProperty, List.lookup_cons]

theorem lookup_XChangeProperty_other (x : XServer) (a b t : Atom) (v : Nat) (h : b ≠ a)
    (p : Property) (hp : x.root_properties.lookup b = some p) :
    (XChangeProperty x a t v).root_properties.lookup b = some p := by
  have hba : (b == a) = false := by simpa using h
  simp only [XChangeProperty, List.lookup_cons, hba]
  revert hp
  generalize x.root_properties = l
  induction l with
  | nil => simp
  | cons e l ih =>
    obtain ⟨k, q⟩ := e
    by_cases hk : b = k
    · subst hk
      simp [List.lookup_cons, List.filter_cons, h]
    · have hbk : (b == k) = false := by simpa using hk
      intro hp
      simp only [List.lookup_cons, hbk] at hp
      by_cases hka : k = a
      · subst hka; simpa [List.filter_cons] using ih hp
      · simp only [List.filter_cons, ne_eq, hka, not_false_eq_true, decide_True, ite_true,
          List.lookup_cons, hbk]
        exact ih hp

theorem XInternAtom_create (x : XServer) (n : String) :
    (XInternAtom x n false).2 = Atom.named n ∧ n ∈ (XInternAtom x n false).1.atoms ∧
    (∀ m ∈ x.atoms, m ∈ (XInternAtom x n false).1.atoms) ∧
    (XInternAtom x n false).1.root_properties = x.root_properties ∧
    (XInternAtom x n false).1.killed = x.killed ∧
    (XInternAtom x n false).1.pixmaps = x.pixmaps ∧
    (XInternAtom x n false).1.root_background = x.root_background := by
  unfold XInternAtom
  by_cases h : n ∈ x.atoms <;> simp [h]
  intro m hm; exact Or.inr hm

/-- After publishing, both names are interned and both properties hold the new pixmap. -/
theorem publish_pixmap_spec (x : XServer) (p : Pixmap) :
    "_XROOTPMAP_ID" ∈ (publish_pixmap x p).atoms ∧
    "ESETROOT_PMAP_ID" ∈ (publish_pixmap x p).atoms ∧
    root_property (publish_pixmap x p) "_XROOTPMAP_ID" = some ⟨Atom.XA_PIXMAP, p⟩ ∧
    root_property (publish_pixmap x p) "ESETROOT_PMAP_ID" = some ⟨Atom.XA_PIXMAP, p⟩ ∧
    (publish_pixmap x p).killed = x.killed := by
  obtain ⟨a1, m1, k1, -, kk1, -, -⟩ := XInternAtom_create x "_XROOTPMAP_ID"
  obtain ⟨a2, m2, k2, -, kk2, -, -⟩ :=
    XInternAtom_create (XInternAtom x "_XROOTPMAP_ID" false).1 "ESETROOT_PMAP_ID"
  unfold publish_pixmap root_property
  simp only [a1, a2, XSetWindowBackgroundPixmap]
  refine ⟨?_, ?_, ?_, ?_, ?_⟩
  · exact k2 _ m1
  · exact m2
  · apply lookup_XChangeProperty_other
    · intro h; exact names_ne (Atom.named.inj h)
    · exact lookup_XChangeProperty_same _ _ _ _
  · exact lookup_XChangeProperty_same _ _ _ _
  · simp [XChangeProperty, kk2, kk1]

theorem publish_pixmap_pixmaps (x : XServer) (p : Pixmap) :
    (publish_pixmap x p).pixmaps = x.pixmaps := by
  obtain ⟨-, -, -, -, -, p1, -⟩ := XInternAtom_create x "_XROOTPMAP_ID"
  obtain ⟨-, -, -, -, -, p2, -⟩ :=
    XInternAtom_create (XInternAtom x "_XROOTPMAP_ID" false).1 "ESETROOT_PMAP_ID"
  simp [publish_pixmap, XSetWindowBackgroundPixmap, XChangeProperty, p1, p2]


theorem evict_previous_owner_kill (x : XServer) (v : Nat)
    (h1 : "_XROOTPMAP_ID" ∈ x.atoms) (h2 : "ESETROOT_PMAP_ID" ∈ x.atoms)
    (hr : root_property x "_XROOTPMAP_ID" = some ⟨Atom.XA_PIXMAP, v⟩)
    (he : root_property x "ESETROOT_PMAP_ID" = some ⟨Atom.XA_PIXMAP, v⟩) :
    evict_previous_owner x = XKillClient x v := by
  unfold root_property at hr he
  simp [evict_previous_owner, XInternAtom, h1, h2, XGetWindowProperty, hr, he]

theorem evict_previous_owner_skip (x : XServer)
    (h : ¬ ∃ v, root_property x "_XROOTPMAP_ID" = some ⟨Atom.XA_PIXMAP, v⟩ ∧
      root_property x "ESETROOT_PMAP_ID" = some ⟨Atom.XA_PIXMAP, v⟩) :
    evict_previous_owner x = x := by
  unfold root_property at h
  unfold evict_previous_owner XInternAtom XGetWindowProperty
  by_cases h1 : "_XROOTPMAP_ID" ∈ x.atoms <;> by_cases h2 : "ESETROOT_PMAP_ID" ∈ x.atoms <;>
    simp [h1, h2]
  cases hr : x.root_properties.lookup (Atom.named "_XROOTPMAP_ID") with
  | none => simp
  | some p =>
    cases he : x.root_properties.lookup (Atom.named "ESETROOT_PMAP_ID") with
    | none => simp
    | some q =>
      obtain ⟨pt, pv⟩ := p
      obtain ⟨qt, qv⟩ := q
      dsimp only
      intro hpt
      subst hpt
      by_cases hc : qt = Atom.XA_PIXMAP ∧ pv = qv
      · obtain ⟨hqt, hv⟩ := hc
        subst hqt hv
        exact absurd ⟨pv, hr, he⟩ h
      · rw [if_neg hc]

theorem mem_of_lookup {l : List (Atom × Property)} {a : Atom} {p : Property}
    (h : l.lookup a = some p) : (a, p) ∈ l := by
  induction l with
  | nil => simp at h
  | cons e l ih =>
    obtain ⟨k, q⟩ := e
    by_cases hk : a = k
    · subst hk; simp [List.lookup_cons] at h; simp [h]
    · have hbk : (a == k) = false := by simpa using hk
      simp only [List.lookup_cons, hbk] at h
      exact List.mem_cons_of_mem _ (ih h)

theorem interned_of_root_property (x : XServer) (hw : x.wf) (n : String) (p : Property)
    (h : root_property x n = some p) : n ∈ x.atoms := by
  obtain ⟨m, hm, he⟩ := hw _ (mem_of_lookup h)
  simp only at he
  cases he
  exact hm


theorem set_pixmap_to_root_ok (x : XServer) (c : Display2) (pm : Pixmap) (w h : Int) :
    set_pixmap_to_root x (some c) pm w h =
      Except.ok (publish_pixmap (evict_previous_owner (XCreatePixmap_filled x c.pmap_d2 w h pm))
        c.pmap_d2) := rfl

/-- C1. Running set_pixmap_to_root twice in a row, from any server state: both
calls return, both ownership properties hold the second call's pixmap with type
PIXMAP, and the second call hands the first call's pixmap to XKillClient, after
which that pixmap no longer exists. So one owner is recorded, never two live
ones; and the recorded owner is live, the two pixmaps having different ids (as
any two pixmaps that exist at the same time have: the first is retained when
the second is created). The id of an owner evicted earlier may be used again. -/
theorem set_pixmap_to_root_twice (x : XServer) (c1 c2 : Display2) (pm1 pm2 : Pixmap)
    (w1 h1 w2 h2 : Int) :
    ∃ x1 x2, set_pixmap_to_root x (some c1) pm1 w1 h1 = Except.ok x1 ∧
      set_pixmap_to_root x1 (some c2) pm2 w2 h2 = Except.ok x2 ∧
      root_property x2 "_XROOTPMAP_ID" = some ⟨Atom.XA_PIXMAP, c2.pmap_d2⟩ ∧
      root_property x2 "ESETROOT_PMAP_ID" = some ⟨Atom.XA_PIXMAP, c2.pmap_d2⟩ ∧
      x2.killed = c1.pmap_d2 :: x1.killed ∧
      c1.pmap_d2 ∉ pixmap_ids x2 ∧
      recorded_owners x2 = [c2.pmap_d2] ∧
      (live_owners x2).length ≤ 1 ∧
      (c2.pmap_d2 ≠ c1.pmap_d2 → live_owners x2 = [c2.pmap_d2]) := by
  refine ⟨_, _, set_pixmap_to_root_ok x c1 pm1 w1 h1, set_pixmap_to_root_ok _ c2 pm2 w2 h2, ?_⟩
  obtain ⟨a1, a2, r1, e1, -⟩ := publish_pixmap_spec
    (evict_previous_owner (XCreatePixmap_filled x c1.pmap_d2 w1 h1 pm1)) c1.pmap_d2
  generalize publish_pixmap
    (evict_previous_owner (XCreatePixmap_filled x c1.pmap_d2 w1 h1 pm1)) c1.pmap_d2 = x1
    at a1 a2 r1 e1 ⊢
  have hk : evict_previous_owner (XCreatePixmap_filled x1 c2.pmap_d2 w2 h2 pm2) =
      XKillClient (XCreatePixmap_filled x1 c2.pmap_d2 w2 h2 pm2) c1.pmap_d2 :=
    evict_previous_owner_kill _ _ a1 a2 r1 e1
  rw [hk]
  obtain ⟨-, -, r2, e2, k2⟩ := publish_pixmap_spec
    (XKillClient (XCreatePixmap_filled x1 c2.pmap_d2 w2 h2 pm2) c1.pmap_d2) c2.pmap_d2
  have hpix := publish_pixmap_pixmaps
    (XKillClient (XCreatePixmap_filled x1 c2.pmap_d2 w2 h2 pm2) c1.pmap_d2) c2.pmap_d2
  have k3 : (XKillClient (XCreatePixmap_filled x1 c2.pmap_d2 w2 h2 pm2) c1.pmap_d2).killed =
      c1.pmap_d2 :: x1.killed := rfl
  rw [k3] at k2
  generalize publish_pixmap
    (XKillClient (XCreatePixmap_filled x1 c2.pmap_d2 w2 h2 pm2) c1.pmap_d2) c2.pmap_d2 = x2
    at r2 e2 k2 hpix ⊢
  have hids : ∀ p, p ∈ pixmap_ids x2 ↔
      (p ≠ c1.pmap_d2 ∧ (p = c2.pmap_d2 ∨ p ∈ pixmap_ids x1)) := by
    intro p
    simp only [pixmap_ids, hpix, XKillClient, XCreatePixmap_filled, List.mem_map,
      List.mem_filter, List.mem_cons, decide_eq_true_eq]
    constructor
    · rintro ⟨e, ⟨he | he, hne⟩, rfl⟩
      · exact ⟨hne, Or.inl (by rw [he])⟩
      · exact ⟨hne, Or.inr ⟨e, he, rfl⟩⟩
    · rintro ⟨hne, rfl | ⟨e, he, rfl⟩⟩
      · exact ⟨_, ⟨Or.inl rfl, hne⟩, rfl⟩
      · exact ⟨e, ⟨Or.inr he, hne⟩, rfl⟩
  have hrec : recorded_owners x2 = [c2.pmap_d2] := by
    simp [recorded_owners, r2, e2]
  refine ⟨r2, e2, k2, ?_, hrec, ?_, ?_⟩
  · intro h
    exact ((hids _).mp h).1 rfl
  · unfold live_owners
    rw [hrec]
    exact le_trans (List.length_filter_le _ _) (by simp)
  · intro hne
    have : c2.pmap_d2 ∈ pixmap_ids x2 := (hids _).mpr ⟨hne, Or.inl rfl⟩
    simp [live_owners, hrec, this]


/-- Witness for C1: a previous setter owns pixmap 7; the first call creates
pixmap 8 and evicts 7, the second call is handed the id 7 again and evicts 8. -/
theorem set_pixmap_to_root_twice_witness :
    ∃ x1 x2, set_pixmap_to_root state_owner_7 (some ⟨8⟩) 3 1920 1080 = Except.ok x1 ∧
      set_pixmap_to_root x1 (some ⟨7⟩) 3 1920 1080 = Except.ok x2 ∧
      x2.killed = [8, 7] ∧ live_owners x2 = [7] := by
  obtain ⟨x1, x2, h1, h2, -, -, hk, -, -, -, hl⟩ :=
    set_pixmap_to_root_twice state_owner_7 ⟨8⟩ ⟨7⟩ 3 3 1920 1080 1920 1080
  have e1 : x1 = publish_pixmap (evict_previous_owner
      (XCreatePixmap_filled state_owner_7 8 1920 1080 3)) 8 := by
    rw [set_pixmap_to_root_ok] at h1
    exact (Except.ok.inj h1).symm
  have hk1 : x1.killed = [7] := by
    rw [e1]; decide
  refine ⟨x1, x2, h1, h2, ?_, hl (by decide)⟩
  rw [hk, hk1]

/-- C9 (as stated) fails: both ownership properties exist on the root window
with the equal value 7, stored with type CARDINAL, and set_pixmap_to_root
hands nothing to XKillClient. -/
theorem eviction_skipped_on_cardinal_type :
    root_property state_cardinal_owner "_XROOTPMAP_ID" = some ⟨Atom.XA_CARDINAL, 7⟩ ∧
    root_property state_cardinal_owner "ESETROOT_PMAP_ID" = some ⟨Atom.XA_CARDINAL, 7⟩ ∧
    ∃ x1, set_pixmap_to_root state_cardinal_owner (some ⟨9⟩) 3 1920 1080 = Except.ok x1 ∧
      x1.killed = [] :=
  ⟨by decide, by decide, _, set_pixmap_to_root_ok _ _ _ _ _, by decide⟩

/-- C9 (amended). set_pixmap_to_root hands the recorded id to XKillClient
exactly when both ownership properties exist on the root window, both have type
PIXMAP and their values are equal; in every other case (a property absent,
another type, different values) it kills nothing. -/
theorem eviction_iff_both_pixmap_equal (x : XServer) (c : Display2) (pm : Pixmap) (w h : Int)
    (hw : x.wf) :
    ∃ x1, set_pixmap_to_root x (some c) pm w h = Except.ok x1 ∧
      ((∃ v, root_property x "_XROOTPMAP_ID" = some ⟨Atom.XA_PIXMAP, v⟩ ∧
          root_property x "ESETROOT_PMAP_ID" = some ⟨Atom.XA_PIXMAP, v⟩ ∧
          x1.killed = v :: x.killed) ∨
       ((¬ ∃ v, root_property x "_XROOTPMAP_ID" = some ⟨Atom.XA_PIXMAP, v⟩ ∧
          root_property x "ESETROOT_PMAP_ID" = some ⟨Atom.XA_PIXMAP, v⟩) ∧
          x1.killed = x.killed)) := by
  refine ⟨_, set_pixmap_to_root_ok x c pm w h, ?_⟩
  obtain ⟨-, -, -, -, k⟩ := publish_pixmap_spec
    (evict_previous_owner (XCreatePixmap_filled x c.pmap_d2 w h pm)) c.pmap_d2
  rw [k]
  by_cases hc : ∃ v, root_property x "_XROOTPMAP_ID" = some ⟨Atom.XA_PIXMAP, v⟩ ∧
      root_property x "ESETROOT_PMAP_ID" = some ⟨Atom.XA_PIXMAP, v⟩
  · left
    obtain ⟨v, hr, he⟩ := hc
    refine ⟨v, hr, he, ?_⟩
    rw [evict_previous_owner_kill (XCreatePixmap_filled x c.pmap_d2 w h pm) v
      (interned_of_root_property x hw _ _ hr) (interned_of_root_property x hw _ _ he) hr he]
    rfl
  · right
    refine ⟨hc, ?_⟩
    rw [evict_previous_owner_skip (XCreatePixmap_filled x c.pmap_d2 w h pm) hc]
    rfl

/-- Witness for C9 (amended): the state with both ids stored as CARDINAL is well
formed, and nothing is killed in it. -/
theorem eviction_iff_both_pixmap_equal_witness :
    state_cardinal_owner.wf ∧
    ∃ x1, set_pixmap_to_root state_cardinal_owner (some ⟨9⟩) 3 1920 1080 = Except.ok x1 ∧
      ((∃ v, root_property state_cardinal_owner "_XROOTPMAP_ID" = some ⟨Atom.XA_PIXMAP, v⟩ ∧
          root_property state_cardinal_owner "ESETROOT_PMAP_ID" = some ⟨Atom.XA_PIXMAP, v⟩ ∧
          x1.killed = v :: state_cardinal_owner.killed) ∨
       ((¬ ∃ v, root_property state_cardinal_owner "_XROOTPMAP_ID" = some ⟨Atom.XA_PIXMAP, v⟩ ∧
          root_property state_cardinal_owner "ESETROOT_PMAP_ID" = some ⟨Atom.XA_PIXMAP, v⟩) ∧
          x1.killed = state_cardinal_owner.killed)) := by
  have hw : state_cardinal_owner.wf := by
    intro e he
    simp only [state_cardinal_owner, List.mem_cons, List.mem_singleton, List.not_mem_nil,
      or_false] at he
    rcases he with he | he <;> subst he <;> simp [state_cardinal_owner]
  exact ⟨hw, eviction_iff_both_pixmap_equal state_cardinal_owner ⟨9⟩ 3 1920 1080 hw⟩


theorem c_trunc_of_nonneg {x : ℚ} (h : 0 ≤ x) : c_trunc x = ⌊x⌋ := by
  simp [c_trunc, h]

theorem draw_iteration_locals (o : Options) (st st1 : DrawState) (inp : FrameInput)
    (h : draw_iteration o st inp = Except.ok st1) :
    st1.width = (render_frame o st inp).width ∧ st1.height = (render_frame o st inp).height ∧
    st1.start = st.start ∧
    st1.texture = (match (render_frame o st inp).glTexImage2D with
      | some size => size
      | none => st.texture) := by
  unfold draw_iteration at h
  by_cases hm : o.mode = ROOT
  · simp only [hm, if_true] at h
    split at h
    · cases h; exact ⟨rfl, rfl, rfl, rfl⟩
    · cases h
  · simp only [hm, if_false] at h
    cases h; exact ⟨rfl, rfl, rfl, rfl⟩

theorem render_frame_width_height (o : Options) (st : DrawState) (inp : FrameInput) :
    (render_frame o st inp).width = (if o.mode = WINDOW then inp.gwa_width else st.width) ∧
    (render_frame o st inp).height = (if o.mode = WINDOW then inp.gwa_height else st.height) :=
  ⟨rfl, rfl⟩

theorem scaled_by_quality_nonneg {n : Int} {q : ℚ} (hn : 0 ≤ n) (hq : 0 ≤ q) :
    0 ≤ scaled_by_quality n q := by
  unfold scaled_by_quality
  exact to_float_nonneg (mul_nonneg (to_float_nonneg (by exact_mod_cast hn)) hq)

/-- The products of the 1366x768 screen with quality 3/4 are exact in binary32. -/
theorem scaled_1366_three_quarters :
    scaled_by_quality 1366 (3 / 4) = 2049 / 2 ∧ scaled_by_quality 768 (3 / 4) = 576 := by
  unfold scaled_by_quality
  have a : to_float ((1366 : Int) : ℚ) = 1366 := by
    rw [to_float_intCast 1366 (by norm_num) (by norm_num)]; norm_num
  have b : to_float ((768 : Int) : ℚ) = 768 := by
    rw [to_float_intCast 768 (by norm_num) (by norm_num)]; norm_num
  rw [a, b]
  constructor
  · rw [to_float_eval _ 10 8392704 (by norm_num) (by norm_num) (by norm_num) (by norm_num)]
    norm_num
  · rw [to_float_eval _ 9 9437184 (by norm_num) (by norm_num) (by norm_num) (by norm_num)]
    norm_num

/-- The `float` nearest to 0.7 is 11744051 / 2^24; its products with 1920 and
1080 round up to the whole numbers 1344 and 756. -/
theorem scaled_1920_seven_tenths :
    to_float (7 / 10) = 11744051 / 16777216 ∧
    scaled_by_quality 1920 (11744051 / 16777216) = 1344 ∧
    scaled_by_quality 1080 (11744051 / 16777216) = 756 := by
  unfold scaled_by_quality
  have a : to_float ((1920 : Int) : ℚ) = 1920 := by
    rw [to_float_intCast 1920 (by norm_num) (by norm_num)]; norm_num
  have b : to_float ((1080 : Int) : ℚ) = 1080 := by
    rw [to_float_intCast 1080 (by norm_num) (by norm_num)]; norm_num
  rw [a, b]
  refine ⟨?_, ?_, ?_⟩
  · rw [to_float_eval _ (-1) 11744051 (by norm_num) (by norm_num) (by norm_num)
      (by norm_num [abs_lt])]
    norm_num
  · rw [to_float_eval _ 10 11010048 (by norm_num) (by norm_num) (by norm_num)
      (by norm_num [abs_lt])]
    norm_num
  · rw [to_float_eval _ 9 12386304 (by norm_num) (by norm_num) (by norm_num)
      (by norm_num [abs_lt])]
    norm_num

theorem viewport_shader_1366 :
    (render_frame ⟨3 / 4, 1, 1, BACKGROUND⟩ state_1366 input_600).viewport_shader =
      { x := 0, y := 0, width := 1024, height := 576 } := by
  have h1 : c_trunc (scaled_by_quality 1366 (3 / 4)) = 1024 := by
    rw [scaled_1366_three_quarters.1, c_trunc_of_nonneg (by norm_num), Int.floor_eq_iff]
    norm_num
  have h2 : c_trunc (scaled_by_quality 768 (3 / 4)) = 576 := by
    rw [scaled_1366_three_quarters.2, c_trunc_of_nonneg (by norm_num), Int.floor_eq_iff]
    norm_num
  simp only [render_frame, BACKGROUND, WINDOW, state_1366, draw_setup]
  simp only [show ((0 : Int) = 1) = False by simp, if_false, h1, h2]

theorem viewport_shader_1920_seven_tenths :
    (render_frame ⟨11744051 / 16777216, 1, 1, BACKGROUND⟩ state_1920
      input_600).viewport_shader = { x := 0, y := 0, width := 1344, height := 756 } := by
  have h1 : c_trunc (scaled_by_quality 1920 (11744051 / 16777216)) = 1344 := by
    rw [scaled_1920_seven_tenths.2.1, c_trunc_of_nonneg (by norm_num), Int.floor_eq_iff]
    norm_num
  have h2 : c_trunc (scaled_by_quality 1080 (11744051 / 16777216)) = 756 := by
    rw [scaled_1920_seven_tenths.2.2, c_trunc_of_nonneg (by norm_num), Int.floor_eq_iff]
    norm_num
  simp only [render_frame, BACKGROUND, WINDOW, state_1920, draw_setup]
  simp only [show ((0 : Int) = 1) = False by simp, if_false, h1, h2]

/-- C2 (as stated) fails: on a 1920x1080 screen with quality 1/2 the texture is
allocated 1920x1080 before the loop, not 960x540, and in window mode a 600x600
window gets a 600x600 texture, not 300x300. -/
theorem texture_not_scaled_by_quality :
    (1 / 100 : ℚ) ≤ 1 / 2 ∧ (1 / 2 : ℚ) ≤ 1 ∧
    state_1920.texture = (1920, 1080) ∧
    (⌊(1920 : ℚ) * (1 / 2)⌋, ⌊(1080 : ℚ) * (1 / 2)⌋) = ((960 : Int), (540 : Int)) ∧
    (render_frame ⟨1 / 2, 1, 1, WINDOW⟩ state_1920 input_600).glTexImage2D = some (600, 600) ∧
    (⌊(600 : ℚ) * (1 / 2)⌋, ⌊(600 : ℚ) * (1 / 2)⌋) = ((300 : Int), (300 : Int)) := by
  refine ⟨by norm_num, by norm_num, rfl, ?_, ?_, ?_⟩
  · norm_num
  · simp [render_frame, input_600]
  · norm_num


/-- C2 (amended). The colour texture is allocated with the output size itself,
whatever the quality: the screen size before the loop, and the current window
size on every window-mode reallocation, so that the texture storage equals
width x height of the frame throughout the loop. The quality does not enter the
allocation: two option sets with the same mode allocate the same size. -/
theorem texture_has_output_size (o o2 : Options) (st : DrawState) (inp : FrameInput)
    (screen : Screen) (start : timespec) (pmap : Pixmap) (server : XServer) :
    (draw_setup screen start pmap server).texture = (screen.width, screen.height) ∧
    (draw_setup screen start pmap server).width = screen.width ∧
    (draw_setup screen start pmap server).height = screen.height ∧
    (render_frame o st inp).glTexImage2D =
      (if o.mode = WINDOW then some (inp.gwa_width, inp.gwa_height) else none) ∧
    (o2.mode = o.mode →
      (render_frame o2 st inp).glTexImage2D = (render_frame o st inp).glTexImage2D) ∧
    (∀ st1, draw_iteration o st inp = Except.ok st1 → st.texture = (st.width, st.height) →
      st1.texture = (st1.width, st1.height) ∧
      st1.texture = ((render_frame o st inp).width, (render_frame o st inp).height)) := by
  refine ⟨rfl, rfl, rfl, ?_, ?_, ?_⟩
  · by_cases hm : o.mode = WINDOW <;> simp [render_frame, hm]
  · intro hm
    simp only [render_frame, hm]
  · intro st1 h1 hinv
    obtain ⟨e1, e2, -, e4⟩ := draw_iteration_locals o st st1 inp h1
    rw [e1, e2, e4]
    by_cases hm : o.mode = WINDOW
    · simp [render_frame, hm]
    · simp [render_frame, hm, hinv]

/-- Witness for C2 (amended): in window mode on the 1920x1080 screen, quality
1/2 and quality 1 allocate the same 600x600 texture for a 600x600 window. -/
theorem texture_has_output_size_witness :
    (render_frame ⟨1 / 2, 1, 1, WINDOW⟩ state_1920 input_600).glTexImage2D = some (600, 600) ∧
    (render_frame ⟨1, 1, 1, WINDOW⟩ state_1920 input_600).glTexImage2D =
      (render_frame ⟨1 / 2, 1, 1, WINDOW⟩ state_1920 input_600).glTexImage2D ∧
    ∃ st1, draw_iteration ⟨1 / 2, 1, 1, WINDOW⟩ state_1920 input_600 = Except.ok st1 ∧
      st1.texture = (st1.width, st1.height) :=
  have h := texture_has_output_size ⟨1 / 2, 1, 1, WINDOW⟩ ⟨1, 1, 1, WINDOW⟩ state_1920 input_600
    ⟨1920, 1080⟩ ⟨100, 0⟩ 3 state_empty
  ⟨h.2.2.2.1, h.2.2.2.2.1 rfl, _, rfl, (h.2.2.2.2.2 _ rfl rfl).1⟩

/-- C4 (as stated) fails: on a 1366x768 screen with quality 3/4 the shader
receives the horizontal resolution 1024.5, and the viewport of that pass is
1024 pixels wide. -/
theorem resolution_differs_from_viewport :
    (1 / 100 : ℚ) ≤ 3 / 4 ∧ (3 / 4 : ℚ) ≤ 1 ∧
    (render_frame ⟨3 / 4, 1, 1, BACKGROUND⟩ state_1366 input_600).resolution = (2049 / 2, 576) ∧
    (render_frame ⟨3 / 4, 1, 1, BACKGROUND⟩ state_1366 input_600).viewport_shader =
      { x := 0, y := 0, width := 1024, height := 576 } := by
  refine ⟨by norm_num, by norm_num, ?_, viewport_shader_1366⟩
  have e : (render_frame ⟨3 / 4, 1, 1, BACKGROUND⟩ state_1366 input_600).resolution =
      (scaled_by_quality 1366 (3 / 4), scaled_by_quality 768 (3 / 4)) := rfl
  rw [e, scaled_1366_three_quarters.1, scaled_1366_three_quarters.2]

/-- C4 (amended). The `resolution` uniform is the `float` product
(W*q, H*q) as computed, not truncated; the viewport of the shader pass is the
truncation of that same value to whole pixels, so each component of the uniform
lies in [viewport size, viewport size + 1) and differs from the viewport size
whenever it is not a whole number. For an output size below 2^24 the uniform is
at most the output size, and equal to it for q = 1. -/
theorem resolution_is_unrounded_viewport (o : Options) (st : DrawState) (inp : FrameInput)
    (hq : 0 ≤ o.quality ∧ o.quality ≤ 1)
    (hw : 0 ≤ (render_frame o st inp).width) (hh : 0 ≤ (render_frame o st inp).height) :
    (render_frame o st inp).resolution =
      (to_float (to_float (render_frame o st inp).width * o.quality),
       to_float (to_float (render_frame o st inp).height * o.quality)) ∧
    (render_frame o st inp).viewport_shader.width = ⌊(render_frame o st inp).resolution.1⌋ ∧
    (render_frame o st inp).viewport_shader.height = ⌊(render_frame o st inp).resolution.2⌋ ∧
    ((render_frame o st inp).viewport_shader.width : ℚ) ≤ (render_frame o st inp).resolution.1 ∧
    (render_frame o st inp).resolution.1 < (render_frame o st inp).viewport_shader.width + 1 ∧
    ((render_frame o st inp).viewport_shader.height : ℚ) ≤ (render_frame o st inp).resolution.2 ∧
    (render_frame o st inp).resolution.2 < (render_frame o st inp).viewport_shader.height + 1 ∧
    ((render_frame o st inp).width < 16777216 →
      (render_frame o st inp).resolution.1 ≤ (render_frame o st inp).width ∧
      (o.quality = 1 → (render_frame o st inp).resolution.1 = (render_frame o st inp).width)) ∧
    ((render_frame o st inp).height < 16777216 →
      (render_frame o st inp).resolution.2 ≤ (render_frame o st inp).height ∧
      (o.quality = 1 →
        (render_frame o st inp).resolution.2 = (render_frame o st inp).height)) := by
  have r1 : (render_frame o st inp).resolution.1 =
      scaled_by_quality (render_frame o st inp).width o.quality := rfl
  have r2 : (render_frame o st inp).resolution.2 =
      scaled_by_quality (render_frame o st inp).height o.quality := rfl
  have v1 : (render_frame o st inp).viewport_shader.width =
      c_trunc (scaled_by_quality (render_frame o st inp).width o.quality) := rfl
  have v2 : (render_frame o st inp).viewport_shader.height =
      c_trunc (scaled_by_quality (render_frame o st inp).height o.quality) := rfl
  have n1 := scaled_by_quality_nonneg hw hq.1
  have n2 := scaled_by_quality_nonneg hh hq.1
  rw [c_trunc_of_nonneg n1] at v1
  rw [c_trunc_of_nonneg n2] at v2
  have key : ∀ n : Int, 0 ≤ n → n < 16777216 →
      scaled_by_quality n o.quality ≤ n ∧ (o.quality = 1 → scaled_by_quality n o.quality = n) := by
    intro n h0 h1
    have e := to_float_intCast n h0 h1
    have hn : (0 : ℚ) ≤ n := by exact_mod_cast h0
    unfold scaled_by_quality
    rw [e]
    constructor
    · have := to_float_mono (mul_nonneg hn hq.1) (mul_le_of_le_one_right hn hq.2)
      rwa [e] at this
    · intro h; rw [h, mul_one, e]
  refine ⟨rfl, ?_, ?_, ?_, ?_, ?_, ?_, ?_, ?_⟩
  · rw [v1, r1]
  · rw [v2, r2]
  · rw [v1, r1]; exact Int.floor_le _
  · rw [v1, r1]; exact Int.lt_floor_add_one _
  · rw [v2, r2]; exact Int.floor_le _
  · rw [v2, r2]; exact Int.lt_floor_add_one _
  · intro h; rw [r1]; exact key _ hw h
  · intro h; rw [r2]; exact key _ hh h

/-- Witness for C4 (amended): the 1920x1080 screen with the `float` nearest to
0.7, where the product rounds up to the whole numbers 1344 and 756. -/
theorem resolution_is_unrounded_viewport_witness :
    (render_frame ⟨11744051 / 16777216, 1, 1, BACKGROUND⟩ state_1920 input_600).resolution =
      (1344, 756) ∧
    (render_frame ⟨11744051 / 16777216, 1, 1, BACKGROUND⟩ state_1920
      input_600).viewport_shader.width =
      ⌊(render_frame ⟨11744051 / 16777216, 1, 1, BACKGROUND⟩ state_1920 input_600).resolution.1⌋ ∧
    (render_frame ⟨11744051 / 16777216, 1, 1, BACKGROUND⟩ state_1920
      input_600).viewport_shader.width = 1344 :=
  have h := resolution_is_unrounded_viewport ⟨11744051 / 16777216, 1, 1, BACKGROUND⟩ state_1920
    input_600 (by norm_num) (by decide) (by decide)
  have e : (render_frame ⟨11744051 / 16777216, 1, 1, BACKGROUND⟩ state_1920 input_600).resolution =
      (scaled_by_quality 1920 (11744051 / 16777216),
       scaled_by_quality 1080 (11744051 / 16777216)) := rfl
  ⟨by rw [e, scaled_1920_seven_tenths.2.1, scaled_1920_seven_tenths.2.2], h.2.1,
    by rw [viewport_shader_1920_seven_tenths]⟩


/-- C5: the code at the failing input. In window mode, on a 1920x1080 screen
with a 600x600 window, the pointer at (1200, 0) is within the screen bounds and
the `mouse` uniform is (2, 1): line 328 divides the root-window coordinates by
the size of the window. -/
theorem mouse_exceeds_one_in_window_mode :
    state_1920.width = 1920 ∧ state_1920.height = 1080 ∧
    0 ≤ input_600.root_x ∧ input_600.root_x ≤ 1920 ∧
    0 ≤ input_600.root_y ∧ input_600.root_y ≤ 1080 ∧
    (render_frame ⟨1, 1, 1, WINDOW⟩ state_1920 input_600).mouse = (2, 1) := by
  refine ⟨rfl, rfl, by decide, by decide, by decide, by decide, ?_⟩
  have a : to_float ((1200 : Int) : ℚ) = 1200 := by
    rw [to_float_intCast 1200 (by norm_num) (by norm_num)]; norm_num
  have b : to_float ((600 : Int) : ℚ) = 600 := by
    rw [to_float_intCast 600 (by norm_num) (by norm_num)]; norm_num
  have c : to_float ((0 : Int) : ℚ) = 0 := by
    rw [to_float_intCast 0 (by norm_num) (by norm_num)]; norm_num
  have d : to_float 2 = 2 := by
    have := to_float_natCast 2 (by norm_num)
    simpa using this
  have e : (render_frame ⟨1, 1, 1, WINDOW⟩ state_1920 input_600).mouse =
      (to_float (to_float ((1200 : Int) : ℚ) / to_float ((600 : Int) : ℚ)),
       to_float (to_double (1 - to_float (to_float ((0 : Int) : ℚ) /
         to_float ((600 : Int) : ℚ))))) := rfl
  rw [e, a, b, c]
  norm_num
  rw [d, to_float_zero]
  norm_num
  rw [to_double_one, to_float_one]

/-- The sibling paths of C5: in background and root mode the divisor is the
screen size, and for a pointer within the bounds of a screen of positive size
both components of the `mouse` uniform are within [0, 1]. -/
theorem mouse_within_unit_square_on_screen (o : Options) (st : DrawState) (inp : FrameInput)
    (hm : o.mode ≠ WINDOW) (hw : 0 < st.width) (hh : 0 < st.height)
    (hx : 0 ≤ inp.root_x ∧ inp.root_x ≤ st.width)
    (hy : 0 ≤ inp.root_y ∧ inp.root_y ≤ st.height) :
    0 ≤ (render_frame o st inp).mouse.1 ∧ (render_frame o st inp).mouse.1 ≤ 1 ∧
    0 ≤ (render_frame o st inp).mouse.2 ∧ (render_frame o st inp).mouse.2 ≤ 1 := by
  have key : ∀ a b : Int, 0 < b → 0 ≤ a → a ≤ b →
      0 ≤ to_float (to_float a / to_float b) ∧ to_float (to_float a / to_float b) ≤ 1 := by
    intro a b hb ha hab
    have a0 : (0 : ℚ) ≤ a := by exact_mod_cast ha
    have ab : (a : ℚ) ≤ b := by exact_mod_cast hab
    have b1 : (1 : ℚ) ≤ b := by exact_mod_cast hb
    have fa : 0 ≤ to_float (a : ℚ) := to_float_nonneg a0
    have fb : 1 ≤ to_float (b : ℚ) := one_le_to_float b1
    have fab : to_float (a : ℚ) ≤ to_float (b : ℚ) := to_float_mono a0 ab
    have q0 : 0 ≤ to_float (a : ℚ) / to_float (b : ℚ) := div_nonneg fa (by linarith)
    have q1 : to_float (a : ℚ) / to_float (b : ℚ) ≤ 1 := (div_le_one (by linarith)).mpr fab
    exact ⟨to_float_nonneg q0, to_float_le_one q0 q1⟩
  have e1 : (render_frame o st inp).mouse.1 =
      to_float (to_float inp.root_x / to_float st.width) := by
    simp [render_frame, hm]
  have e2 : (render_frame o st inp).mouse.2 =
      to_float (to_double (1 - to_float (to_float inp.root_y / to_float st.height))) := by
    simp [render_frame, hm]
  obtain ⟨x0, x1⟩ := key _ _ hw hx.1 hx.2
  obtain ⟨y0, y1⟩ := key _ _ hh hy.1 hy.2
  have d0 : 0 ≤ to_double (1 - to_float (to_float inp.root_y / to_float st.height)) :=
    to_double_nonneg (by linarith)
  have d1 : to_double (1 - to_float (to_float inp.root_y / to_float st.height)) ≤ 1 :=
    to_double_le_one (by linarith) (by linarith)
  rw [e1, e2]
  exact ⟨x0, x1, to_float_nonneg d0, to_float_le_one d0 d1⟩

theorem delta_us_1s : delta_us ⟨100, 0⟩ ⟨101, 0⟩ = 1000000 := by decide

theorem delta_us_2s : delta_us ⟨100, 0⟩ ⟨102, 0⟩ = 2000000 := by decide

/-- The literal `0.000001f`. -/
theorem to_float_micro : to_float (1 / 1000000) = 8796093 / 8796093022208 := by
  rw [to_float_eval _ (-20) 8796093 (by norm_num) (by norm_num) (by norm_num)
    (by norm_num [abs_lt])]
  norm_num

theorem time_after_1s (speed : ℚ) :
    to_float (to_float (to_float ((1000000 : Nat) : ℚ) * to_float (1 / 1000000)) * speed) =
      to_float speed := by
  have h : to_float (((1000000 : Nat) : ℚ) * (8796093 / 8796093022208)) = 1 := by
    rw [to_float_eval (((1000000 : Nat) : ℚ) * (8796093 / 8796093022208)) (-1) 16777216
      (by norm_num) (by norm_num) (by norm_num) (by norm_num [abs_lt])]
    norm_num
  rw [to_float_natCast 1000000 (by norm_num), to_float_micro, h, one_mul]

theorem time_after_2s (speed : ℚ) :
    to_float (to_float (to_float ((2000000 : Nat) : ℚ) * to_float (1 / 1000000)) * speed) =
      to_float (2 * speed) := by
  have h : to_float (((2000000 : Nat) : ℚ) * (8796093 / 8796093022208)) = 2 := by
    rw [to_float_eval (((2000000 : Nat) : ℚ) * (8796093 / 8796093022208)) 0 16777216
      (by norm_num) (by norm_num) (by norm_num) (by norm_num [abs_lt])]
    norm_num
  rw [to_float_natCast 2000000 (by norm_num), to_float_micro, h]

/-- C6 (as stated) fails: the speed -1 is accepted, and with it the `time`
uniform goes from -1 to -2 between a frame one second after the start and the
next frame two seconds after the start. -/
theorem time_decreases_for_negative_speed :
    timespec.le state_1920.start input_600.end_ ∧ timespec.le input_600.end_ input_later.end_ ∧
    ∃ st1, draw_iteration ⟨1, -1, 1, BACKGROUND⟩ state_1920 input_600 = Except.ok st1 ∧
      (render_frame ⟨1, -1, 1, BACKGROUND⟩ state_1920 input_600).time = -1 ∧
      (render_frame ⟨1, -1, 1, BACKGROUND⟩ st1 input_later).time = -2 := by
  have two : to_float 2 = 2 := by
    have := to_float_natCast 2 (by norm_num)
    simpa using this
  refine ⟨by decide, by decide, _, rfl, ?_, ?_⟩
  · show to_float (to_float (to_float ((delta_us ⟨100, 0⟩ ⟨101, 0⟩ : Nat) : ℚ) *
      to_float (1 / 1000000)) * (-1)) = -1
    rw [delta_us_1s, time_after_1s, to_float_neg, to_float_one]
  · show to_float (to_float (to_float ((delta_us ⟨100, 0⟩ ⟨102, 0⟩ : Nat) : ℚ) *
      to_float (1 / 1000000)) * (-1)) = -2
    rw [delta_us_2s, time_after_2s]
    norm_num
    rw [to_float_neg, two]

/-- C6 (amended). For every speed multiplier that is not negative, the `time`
uniform does not decrease from one frame to the next, the clock readings being
in time order and the elapsed time fitting the 64 bits of `delta_us`. -/
theorem time_monotone_for_nonneg_speed (o : Options) (st st1 : DrawState) (inp1 inp2 : FrameInput)
    (hspeed : 0 ≤ o.speed)
    (hs : 0 ≤ st.start.tv_nsec ∧ st.start.tv_nsec < 1000000000)
    (h1 : 0 ≤ inp1.end_.tv_nsec ∧ inp1.end_.tv_nsec < 1000000000)
    (h2 : 0 ≤ inp2.end_.tv_nsec ∧ inp2.end_.tv_nsec < 1000000000)
    (hse : timespec.le st.start inp1.end_) (hee : timespec.le inp1.end_ inp2.end_)
    (hfit : elapsed_us st.start inp2.end_ < 2 ^ 64)
    (hit : draw_iteration o st inp1 = Except.ok st1) :
    (render_frame o st inp1).time =
      to_float (to_float (to_float (render_frame o st inp1).delta_us * to_float (1 / 1000000)) *
        o.speed) ∧
    (render_frame o st inp1).delta_us ≤ (render_frame o st1 inp2).delta_us ∧
    (render_frame o st inp1).time ≤ (render_frame o st1 inp2).time := by
  obtain ⟨-, -, hstart, -⟩ := draw_iteration_locals o st st1 inp1 hit
  obtain ⟨hn, hmono⟩ := elapsed_us_mono st.start inp1.end_ inp2.end_ hs h1 h2 hse hee
  have q1 := delta_us_eq_elapsed st.start inp1.end_ hs h1 hn (lt_of_le_of_lt hmono hfit)
  have q2 := delta_us_eq_elapsed st.start inp2.end_ hs h2 (le_trans hn hmono) hfit
  have hd : delta_us st.start inp1.end_ ≤ delta_us st.start inp2.end_ := by
    have : (delta_us st.start inp1.end_ : Int) ≤ (delta_us st.start inp2.end_ : Int) := by
      rw [q1, q2]; exact hmono
    exact_mod_cast this
  have hdq : ((delta_us st.start inp1.end_ : Nat) : ℚ) ≤ (delta_us st.start inp2.end_ : Nat) := by
    exact_mod_cast hd
  have d0 : (0 : ℚ) ≤ (delta_us st.start inp1.end_ : Nat) := by positivity
  have c0 : 0 ≤ to_float (1 / 1000000) := to_float_nonneg (by norm_num)
  have f0 : 0 ≤ to_float ((delta_us st.start inp1.end_ : Nat) : ℚ) := to_float_nonneg d0
  have f1 := to_float_mono d0 hdq
  have g0 : 0 ≤ to_float ((delta_us st.start inp1.end_ : Nat) : ℚ) * to_float (1 / 1000000) :=
    mul_nonneg f0 c0
  have g1 := to_float_mono g0 (mul_le_mul_of_nonneg_right f1 c0)
  have k0 : 0 ≤ to_float (to_float ((delta_us st.start inp1.end_ : Nat) : ℚ) *
      to_float (1 / 1000000)) * o.speed := mul_nonneg (to_float_nonneg g0) hspeed
  have k1 := to_float_mono k0 (mul_le_mul_of_nonneg_right g1 hspeed)
  refine ⟨rfl, ?_, ?_⟩
  · show delta_us st.start inp1.end_ ≤ delta_us st1.start inp2.end_
    rw [hstart]; exact hd
  · show to_float (to_float (to_float ((delta_us st.start inp1.end_ : Nat) : ℚ) *
        to_float (1 / 1000000)) * o.speed) ≤
      to_float (to_float (to_float ((delta_us st1.start inp2.end_ : Nat) : ℚ) *
        to_float (1 / 1000000)) * o.speed)
    rw [hstart]
    exact k1

/-- Witness for C6 (amended): speed 2, frames one and two seconds after the start. -/
theorem time_monotone_for_nonneg_speed_witness :
    ∃ st1, draw_iteration ⟨1, 2, 1, BACKGROUND⟩ state_1920 input_600 = Except.ok st1 ∧
      (render_frame ⟨1, 2, 1, BACKGROUND⟩ state_1920 input_600).time ≤
        (render_frame ⟨1, 2, 1, BACKGROUND⟩ st1 input_later).time :=
  ⟨_, rfl, (time_monotone_for_nonneg_speed ⟨1, 2, 1, BACKGROUND⟩ state_1920 _ input_600 input_later
    (by norm_num) (by decide) (by decide) (by decide) (by decide) (by decide) (by decide)
    rfl).2.2⟩


theorem opacity_properties_init_window (o : Options) (env : InitEnv)
    (hm : o.mode = WINDOW ∨ o.mode = BACKGROUND) :
    opacity_properties (init_window o env) =
      (if o.opacity < 1 then [PropertyValue.cardinal (cardinal_alpha o.opacity)] else []) := by
  unfold init_window
  rw [if_pos hm]
  by_cases hb : o.mode = BACKGROUND <;> by_cases ho : o.opacity < 1 <;>
    simp [hb, ho, opacity_properties, Call.opacity_value]

theorem opacity_properties_init (o : Options) (env : InitEnv) (filepath : String)
    (hd : env.display_opened = true) (hv : env.visual_found = true) :
    opacity_properties (init o env filepath).calls = opacity_properties (init_window o env) := by
  unfold init
  simp only [hd, hv]
  by_cases hc : env.context_created = false
  · simp [hc, opacity_properties, Call.opacity_value]
  · by_cases hg : env.glew_ok = false
    · by_cases hr : o.mode = ROOT <;>
        simp [hc, hg, hr, opacity_properties, Call.opacity_value]
    · by_cases hs : env.shader_compiled = false <;> by_cases hr : o.mode = ROOT <;>
        simp [hc, hg, hs, hr, opacity_properties, Call.opacity_value]

/-- The conversion of `(uint32_t)-1` to `float` rounds up to 2^32. -/
theorem to_float_UINT32_MAX : to_float 4294967295 = UINT32_MAX_float := by
  rw [to_float_eval 4294967295 31 16777216 (by norm_num) (by norm_num) (by norm_num)
    (by norm_num [abs_lt])]
  norm_num [UINT32_MAX_float]

theorem cardinal_alpha_bounds {opacity : ℚ} (h0 : 0 ≤ opacity) (h1 : opacity < 1) :
    cardinal_alpha opacity = ⌊opacity * 4294967296⌋ ∧
    0 ≤ cardinal_alpha opacity ∧ cardinal_alpha opacity < 4294967296 ∧
    (cardinal_alpha opacity : ℚ) ≤ opacity * 4294967296 ∧
    opacity * 4294967296 < cardinal_alpha opacity + 1 := by
  have hx : (0 : ℚ) ≤ opacity * 4294967296 := by positivity
  have hlt : opacity * 4294967296 < 4294967296 := by linarith
  have hf0 : 0 ≤ ⌊opacity * 4294967296⌋ := Int.floor_nonneg.mpr hx
  have hf1 : ⌊opacity * 4294967296⌋ < 4294967296 := by
    rw [Int.floor_lt]; exact_mod_cast hlt
  have e : cardinal_alpha opacity = ⌊opacity * 4294967296⌋ := by
    unfold cardinal_alpha UINT32_MAX_float
    rw [c_trunc_of_nonneg hx]
    exact Int.emod_eq_of_lt hf0 (by norm_num; exact hf1)
  rw [e]
  exact ⟨rfl, hf0, hf1, Int.floor_le _, Int.lt_floor_add_one _⟩

/-- C7 (as stated) fails: for the opacity 3 * 2^-34 (a binary32 value, `-o
0x1.8p-33`), the cardinal attached in window mode is 0, the truncation of 0.75,
while round (opacity * 0xFFFFFFFF) is 1. -/
theorem opacity_cardinal_truncates :
    (0 : ℚ) ≤ 3 / 17179869184 ∧ (3 / 17179869184 : ℚ) < 1 ∧
    opacity_properties (init ⟨1, 1, 3 / 17179869184, WINDOW⟩ env_ok "shader.frag").calls =
      [PropertyValue.cardinal 0] ∧
    round ((3 / 17179869184 : ℚ) * 4294967295) = 1 := by
  refine ⟨by norm_num, by norm_num, ?_, ?_⟩
  · rw [opacity_properties_init _ _ _ rfl rfl, opacity_properties_init_window _ _ (Or.inl rfl)]
    have h : cardinal_alpha (3 / 17179869184) = 0 := by
      rw [(cardinal_alpha_bounds (by norm_num) (by norm_num)).1, Int.floor_eq_iff]
      norm_num
    simp only [h]
    norm_num
  · rw [round_eq, Int.floor_eq_iff]; norm_num

/-- C7 (amended). In window or background mode, once the display is open and a
visual is found: an opacity of 1 attaches no `_NET_WM_WINDOW_OPACITY`
property, and every opacity in [0, 1) attaches exactly one, whose 32-bit
cardinal is floor (opacity * 2^32): the product is truncated, not rounded, and
its constant operand is 2^32 as a `float`. -/
theorem opacity_cardinal_is_truncation (o : Options) (env : InitEnv) (filepath : String)
    (hm : o.mode = WINDOW ∨ o.mode = BACKGROUND)
    (hd : env.display_opened = true) (hv : env.visual_found = true) :
    (o.opacity = 1 → opacity_properties (init o env filepath).calls = []) ∧
    (0 ≤ o.opacity → o.opacity < 1 →
      ∃ v : Int, opacity_properties (init o env filepath).calls = [PropertyValue.cardinal v] ∧
        v = ⌊o.opacity * 4294967296⌋ ∧ 0 ≤ v ∧ v < 4294967296 ∧
        (v : ℚ) ≤ o.opacity * 4294967296 ∧ o.opacity * 4294967296 < v + 1) := by
  rw [opacity_properties_init o env filepath hd hv, opacity_properties_init_window o env hm]
  constructor
  · intro h1
    simp [h1]
  · intro h0 h1
    refine ⟨cardinal_alpha o.opacity, by simp [h1], cardinal_alpha_bounds h0 h1⟩

/-- Witness for C7 (amended): opacity 3/4 in background mode attaches 3221225472. -/
theorem opacity_cardinal_is_truncation_witness :
    ∃ v : Int, opacity_properties (init ⟨1, 1, 3 / 4, BACKGROUND⟩ env_ok "shader.frag").calls =
        [PropertyValue.cardinal v] ∧ v = 3221225472 :=
  have h := (opacity_cardinal_is_truncation ⟨1, 1, 3 / 4, BACKGROUND⟩ env_ok "shader.frag"
    (Or.inr rfl) rfl rfl).2 (by norm_num) (by norm_num)
  have e : ⌊(3 / 4 : ℚ) * 4294967296⌋ = 3221225472 := by
    rw [Int.floor_eq_iff]; norm_num
  h.elim fun v hv => ⟨v, hv.1, hv.2.1.trans e⟩


/-- C8 (as stated) fails: for a shader file that does not exist, `main` exits
with the failure status after the error message alone; the help text is not
printed. -/
theorem no_help_for_missing_file :
    main 2 args_no_such_file env_ok none =
      ⟨EXIT_FAILURE, [Output.stderr "ERROR: File at 'nope.frag' does not exist\n"]⟩ ∧
    Output.print_help ∉ (main 2 args_no_such_file env_ok none).output := by
  constructor
  · simp [main, args_no_such_file]
  · simp [main, args_no_such_file]

/-- C8 (amended). Without arguments `main` prints the help and exits with
status 0. With at least one argument, when the shader path is missing, the
shader file does not exist, or the mode is unknown, `main` exits with the
failure status without calling `init` or `draw`, after printing one error
message; the help text follows the message when the path is missing or the
mode is unknown, and is not printed when the named file does not exist. -/
theorem main_error_paths (argc : Nat) (a : Arguments) (env : InitEnv) (draw_exit : Option Int) :
    (argc ≤ 1 → main argc a env draw_exit = ⟨0, [Output.print_help]⟩) ∧
    (1 < argc → (a.file_path = "" ∨ a.file_exists = false ∨ a.mode = -1) →
      (main argc a env draw_exit).status = EXIT_FAILURE ∧
      (∀ e ∈ (main argc a env draw_exit).output, e.is_init_or_draw = false) ∧
      (∃ text, (main argc a env draw_exit).output = [Output.stderr text] ∨
        (main argc a env draw_exit).output = [Output.stderr text, Output.print_help]) ∧
      (Output.print_help ∈ (main argc a env draw_exit).output ↔
        (a.file_path = "" ∨ a.file_exists = true))) := by
  constructor
  · intro h
    simp [main, h]
  · intro h hc
    have h1 : ¬ argc ≤ 1 := by omega
    by_cases hp : a.file_path = ""
    · have e : main argc a env draw_exit =
          ⟨EXIT_FAILURE, [Output.stderr "Error: File not specified!\n", Output.print_help]⟩ := by
        simp [main, h1, hp]
      rw [e]
      exact ⟨rfl, by simp [Output.is_init_or_draw], ⟨_, Or.inr rfl⟩, by simp [hp]⟩
    · by_cases hf : a.file_exists = false
      · have e : main argc a env draw_exit = ⟨EXIT_FAILURE,
            [Output.stderr ("ERROR: File at '" ++ a.file_path ++ "' does not exist\n")]⟩ := by
          simp [main, h1, hp, hf]
        rw [e]
        exact ⟨rfl, by simp [Output.is_init_or_draw], ⟨_, Or.inl rfl⟩, by simp [hp, hf]⟩
      · have hm : a.mode = -1 := by
          rcases hc with hc | hc | hc
          · exact absurd hc hp
          · exact absurd hc hf
          · exact hc
        have hf1 : a.file_exists = true := by simpa using hf
        have e : main argc a env draw_exit = ⟨EXIT_FAILURE,
            [Output.stderr ("ERROR: Mode \"" ++ a.mode_name ++ "\" does not exist\n"),
             Output.print_help]⟩ := by
          simp [main, h1, hp, hf1, hm]
        rw [e]
        exact ⟨rfl, by simp [Output.is_init_or_draw], ⟨_, Or.inr rfl⟩, by simp [hf1]⟩

/-- Witness for C8 (amended): one argument, the path of a file that does not exist. -/
theorem main_error_paths_witness :
    (main 2 args_no_such_file env_ok none).status = EXIT_FAILURE ∧
    (Output.print_help ∈ (main 2 args_no_such_file env_ok none).output ↔
      (args_no_such_file.file_path = "" ∨ args_no_such_file.file_exists = true)) :=
  have h := (main_error_paths 2 args_no_such_file env_ok none).2 (by decide) (Or.inr (Or.inl rfl))
  ⟨h.1, h.2.2.2⟩


/-- The literal 0.01 of line 435 as a `double`, and the same value stored in a `float`. -/
theorem to_float_to_double_hundredth :
    to_double (1 / 100) = 5764607523034235 / 576460752303423488 ∧
    to_float (to_double (1 / 100)) = 5368709 / 536870912 := by
  have a : to_double (1 / 100) = 5764607523034235 / 576460752303423488 := by
    rw [to_double_eval _ (-7) 5764607523034235 (by norm_num) (by norm_num) (by norm_num)
      (by norm_num [abs_lt])]
    norm_num
  refine ⟨a, ?_⟩
  rw [a, to_float_eval _ (-7) 10737418 (by norm_num) (by norm_num) (by norm_num)
    (by norm_num [abs_lt])]
  norm_num

/-- The quality that `main` stores (line 435) and hands to `init` and `draw`
lies between the `float` 0.01f = 5368709 / 2^29 and 1. -/
theorem main_quality_range (argc : Nat) (a : Arguments) (env : InitEnv) (draw_exit : Option Int)
    (path : String) (o : Options)
    (h : Output.init path o ∈ (main argc a env draw_exit).output ∨
      Output.draw o ∈ (main argc a env draw_exit).output) :
    5368709 / 536870912 ≤ o.quality ∧ o.quality ≤ 1 := by
  obtain ⟨c1, c2⟩ := to_float_to_double_hundredth
  have c0 : (0 : ℚ) ≤ to_double (1 / 100) := by rw [c1]; norm_num
  have cle : to_double (1 / 100) ≤ 1 := by rw [c1]; norm_num
  have key : 5368709 / 536870912 ≤ to_float (min (max a.quality (to_double (1 / 100))) 1) ∧
      to_float (min (max a.quality (to_double (1 / 100))) 1) ≤ 1 := by
    have l : to_double (1 / 100) ≤ min (max a.quality (to_double (1 / 100))) 1 :=
      le_min (le_max_right _ _) cle
    constructor
    · rw [← c2]; exact to_float_mono c0 l
    · exact to_float_le_one (le_trans c0 l) (min_le_right _ _)
  have hall : ∀ e ∈ (main argc a env draw_exit).output, ∀ p q,
      (e = Output.init p q ∨ e = Output.draw q) →
      q.quality = to_float (min (max a.quality (to_double (1 / 100))) 1) := by
    intro e he p q hq
    by_cases c1 : argc ≤ 1
    · simp [main, c1] at he; subst he; simp at hq
    by_cases c2 : a.file_path = ""
    · simp [main, c1, c2] at he; rcases he with rfl | rfl <;> simp at hq
    by_cases c3 : a.file_exists = false
    · simp [main, c1, c2, c3] at he; subst he; simp at hq
    by_cases c4 : a.mode = -1
    · simp [main, c1, c2, c3, c4] at he; rcases he with rfl | rfl <;> simp at hq
    simp only [main, c1, c2, c3, c4, if_false] at he
    generalize (init _ env a.file_path).exit = ie at he
    have fin : ∀ l : List Output, e ∈ l →
        (∀ e2 ∈ l, ∀ p q, (e2 = Output.init p q ∨ e2 = Output.draw q) →
          q.quality = to_float (min (max a.quality (to_double (1 / 100))) 1)) →
        q.quality = to_float (min (max a.quality (to_double (1 / 100))) 1) :=
      fun l hl hall => hall e hl p q hq
    cases ie <;> cases draw_exit <;> dsimp only at he
    all_goals (apply fin _ he; intro e2 he2 p2 q2 hq2)
    all_goals simp only [Bool.true_eq_false, if_false, List.mem_cons, List.mem_singleton,
      List.not_mem_nil, or_false] at he2
    all_goals rcases he2 with rfl | rfl <;> rcases hq2 with hq2 | hq2 <;> cases hq2 <;> rfl
  rcases h with h | h
  · rw [hall _ h path o (Or.inl rfl)]; exact key
  · rw [hall _ h path o (Or.inr rfl)]; exact key


end Show
